import Mathlib

set_option maxRecDepth 2000

/-!
Shallow embedding of the STM32MP RIF/RIFSC/RISAF/ETZPC resource-isolation
drivers (OP-TEE platform layer) and proofs about them.

Conventions of the embedding:
* Machine integers (`uint32_t`, `uintptr_t`) are `Nat` values; a reduction
  `% 2 ^ 32` (resp. `% 2 ^ 64`) is applied exactly where the C arithmetic
  can wrap.  A C left shift past the operand width is undefined behaviour;
  it is modelled here as shifting out (`2 ^ n % 2 ^ 32`), the behaviour of
  the 32-bit Arm cores this driver targets.
* `panic()` and failed `assert()` make a function return `none`.
* MMIO register blocks are explicit state records; `io_read32`,
  `io_write32`, `io_setbits32`, `io_clrbits32`, `io_clrsetbits32` and their
  `_stm32shregs` variants become reads/updates of those records.  Register
  writes are additionally recorded in an explicit write log where a claim
  is about which registers are (not) written.
* The hardware-arbitrated semaphore register (SEMCR) is hardware, not code
  of this repository: its behaviour is modelled from the specification
  (section 4.1), with the compartment that wins an acquire race left as an
  explicit parameter.  For `stm32_rif_release_semaphore`, which the
  specification describes in terms of racy re-reads, a second embedding is
  given that is parametric in the values returned by the successive MMIO
  reads.
* Device-tree binding constants (`RIF_PER_ID_MASK`, `ETZPC_ID_MASK`,
  `DT_RISAF_REG_ID_MASK`, ...) live in headers that are not part of the
  provided sources; they are modelled from the specification (section 6)
  with concrete, self-consistent bit positions, and are marked as such.
* Configuration choices: `CFG_STM32_RIF` enabled, `CFG_STM32MP15` for the
  ETZPC driver (the variant with the MCU-isolation attribute),
  `CFG_WITH_PAGER` disabled, `CFG_STM32MP21` disabled.
-/

/-- C macro `BIT(n)` (`util.h`), as a 32-bit value: a shift past the
register width is modelled as shifting out (result `0`). -/
def BIT (n : Nat) : Nat := (2 ^ n) % 2 ^ 32

/-- C macro `GENMASK_32(h, l)` (`util.h`): bits `l..h` set. -/
def GENMASK_32 (h l : Nat) : Nat := (2 ^ (h + 1) - 2 ^ l) % 2 ^ 32

/-- Bitwise complement of a 32-bit value, as used by `io_clrbits32` and
`io_clrsetbits32` (`~mask` on a `uint32_t`). -/
def NOT32 (x : Nat) : Nat := 2 ^ 32 - 1 - x % 2 ^ 32

/-- Pointwise update of a register/array map at one index. -/
def updf {α : Type} (f : Nat → α) (i : Nat) (v : α) : Nat → α :=
  fun j => if j = i then v else f j

/-- The `TEE_Result` codes this subsystem uses. -/
inductive TEE_Result where
  | success
  | errorAccessDenied
  | errorBadParameters
  | errorGeneric
  | errorNotSupported
  | errorItemNotFound
  deriving DecidableEq, Repr

/-! ## RIF primitive library: constants from `core/include/drivers/stm32_rif.h` -/

def _CIDCFGR_CFEN : Nat := BIT 0

def _CIDCFGR_SCID_SHIFT : Nat := 4

def _CIDCFGR_SEMEN : Nat := BIT 1

def _CIDCFGR_SEMWL_SHIFT : Nat := 16

def _CIDCFGR_SEMWL (x : Nat) : Nat := BIT (_CIDCFGR_SEMWL_SHIFT + x)

def _SEMCR_MUTEX : Nat := BIT 0

def _SEMCR_SEMCID_SHIFT : Nat := 4

def _SEMCR_SEMCID_MASK : Nat := GENMASK_32 6 4

def MAX_CID_BITFIELD : Nat := 3

def MAX_CID_SUPPORTED : Nat := 7

/-- Modelled from the spec: `RIF_CID0`/`RIF_CID1` come from a device-tree
binding header that is not among the provided sources; the specification
fixes CID 0 as the reserved/invalid compartment and CID 1 as the primary
secure compartment running this engine. -/
def RIF_CID0 : Nat := 0

/-- Modelled from the spec: see `RIF_CID0`. -/
def RIF_CID1 : Nat := 1

/-- Modelled from the spec (section 6): the 32-bit device-tree RIF
configuration cell carries the resource index in the bits of
`RIF_PER_ID_MASK`; the binding header with the concrete positions is not
among the provided sources, so the low byte is used here. -/
def RIF_PER_ID_MASK : Nat := GENMASK_32 7 0

/-- Modelled from the spec (section 6): packed CID sub-word field of the
device-tree cell.  The extracted field is written verbatim to a CIDCFGR
register, so after the shift it must follow the CIDCFGR layout (CFEN bit 0,
SEMEN bit 1, SCID bits 6:4, SEMWL bits 23:16). -/
def RIF_PERx_CID_SHIFT : Nat := 8

/-- Modelled from the spec (section 6): see `RIF_PERx_CID_SHIFT`. -/
def RIF_PERx_CID_MASK : Nat := GENMASK_32 31 8

/-- Modelled from the spec (section 6): security flag bit of the cell
(a position unused by the other modelled fields). -/
def RIF_SEC_SHIFT : Nat := 15

/-- Modelled from the spec (section 6): privilege flag bit of the cell. -/
def RIF_PRIV_SHIFT : Nat := 16

/-- Modelled from the spec (section 6): lock flag bit of the cell. -/
def RIF_LOCK_SHIFT : Nat := 17

/-- Modelled from the spec (section 6): static-CID field of the cell, as
used by `stm32_rifsc_check_access`. -/
def RIF_SCID_SHIFT : Nat := 12

/-- Modelled from the spec (section 6): see `RIF_SCID_SHIFT`. -/
def RIF_SCID_MASK : Nat := GENMASK_32 14 12

/-- Modelled from the spec: device-tree identifiers at or above this offset
denote RIMU (bus-master) resources rather than RISUP peripherals. -/
def RIMU_ID_OFFSET : Nat := 128

/-- C macro `SCID_OK(cidcfgr, scid_m, cid)` from `stm32_rif.h`. -/
def SCID_OK (cidcfgr scid_m cid : Nat) : Bool :=
  cidcfgr &&& scid_m == (cid <<< _CIDCFGR_SCID_SHIFT) % 2 ^ 32 &&
  cidcfgr &&& _CIDCFGR_SEMEN == 0

/-- C macro `SEM_EN_AND_OK(cidcfgr, wl)` from `stm32_rif.h`. -/
def SEM_EN_AND_OK (cidcfgr wl : Nat) : Bool :=
  cidcfgr &&& _CIDCFGR_CFEN != 0 &&
  cidcfgr &&& _CIDCFGR_SEMEN != 0 &&
  cidcfgr &&& _CIDCFGR_SEMWL wl != 0

/-- C macro `SEM_MODE_INCORRECT(cidcfgr)` from `stm32_rif.h`
(the `CFG_STM32_RIF` variant). -/
def SEM_MODE_INCORRECT (cidcfgr : Nat) : Bool :=
  cidcfgr &&& _CIDCFGR_CFEN == 0 ||
  cidcfgr &&& _CIDCFGR_SEMEN == 0 ||
  (cidcfgr &&& _CIDCFGR_SEMWL RIF_CID1 == 0 &&
   cidcfgr &&& _CIDCFGR_SEMEN != 0)

/-- Position of the most significant set bit (floor of the base-2
logarithm), with enough fuel for any 32-bit value; a computable builder
for the C expression below. -/
def msbAux : Nat → Nat → Nat
  | 0, _ => 0
  | fuel + 1, x => if x < 2 then 0 else msbAux fuel (x / 2) + 1

/-- The `msb_nb_cid_supp` computation
`sizeof(nb) * 8 - __builtin_clz(nb | 1) - 1` (index of the most
significant set bit of `nb | 1`). -/
def msb_nb_cid_supp (nb : Nat) : Nat := msbAux 32 (nb ||| 1)

/-- The SCID bitfield mask `GENMASK_32(_CIDCFGR_SCID_SHIFT + msb, _CIDCFGR_SCID_SHIFT)`
computed identically by `stm32_rif_check_access`, `stm32_rif_acquire_semaphore`
and `stm32_rif_release_semaphore`. -/
def rif_scid_mask (nb : Nat) : Nat :=
  GENMASK_32 (_CIDCFGR_SCID_SHIFT + msb_nb_cid_supp nb) _CIDCFGR_SCID_SHIFT

/-- `stm32_rif_check_access` from `core/drivers/firewall/stm32_rif.c`.
`none` models the failed `assert(msb_nb_cid_supp < MAX_CID_BITFIELD)`. -/
def stm32_rif_check_access (cidcfgr semcr nb_cid_supp cid_to_check : Nat) :
    Option TEE_Result :=
  if msb_nb_cid_supp nb_cid_supp ≥ MAX_CID_BITFIELD then none
  else if cidcfgr &&& _CIDCFGR_CFEN == 0 then some TEE_Result.success
  else if SCID_OK cidcfgr (rif_scid_mask nb_cid_supp) cid_to_check then
    some TEE_Result.success
  else if SEM_EN_AND_OK cidcfgr cid_to_check &&
          (semcr &&& _SEMCR_MUTEX == 0 ||
           (semcr &&& rif_scid_mask nb_cid_supp) >>> _CIDCFGR_SCID_SHIFT ==
             cid_to_check) then
    some TEE_Result.success
  else some TEE_Result.errorAccessDenied

/-- C struct `rif_conf_data` from `stm32_rif.h`.  The per-IP register
shadow arrays are maps from word index (resp. resource index for
`cid_confs`); `lock_conf` may be a null pointer in the C code, hence the
`Option`. -/
structure rif_conf_data where
  access_mask : Nat → Nat
  sec_conf : Nat → Nat
  priv_conf : Nat → Nat
  cid_confs : Nat → Nat
  lock_conf : Option (Nat → Nat)
  deriving Inhabited

/-- `stm32_rif_parse_cfg` from `core/drivers/firewall/stm32_rif.c`.
`none` models the two `panic()` calls (too many CIDs, resource index out
of range). -/
def stm32_rif_parse_cfg (rif_conf : Nat) (conf_data : rif_conf_data)
    (nb_cid_supp nb_resource : Nat) : Option rif_conf_data :=
  if nb_cid_supp > MAX_CID_SUPPORTED then none
  else
    let resource_id := rif_conf &&& RIF_PER_ID_MASK
    if resource_id ≥ nb_resource then none
    else
      let conf_index := resource_id / 32
      let d1 :=
        if rif_conf &&& BIT RIF_PRIV_SHIFT != 0 then
          { conf_data with
            priv_conf := updf conf_data.priv_conf conf_index
              (conf_data.priv_conf conf_index ||| BIT resource_id) }
        else conf_data
      let d2 :=
        if rif_conf &&& BIT RIF_SEC_SHIFT != 0 then
          { d1 with
            sec_conf := updf d1.sec_conf conf_index
              (d1.sec_conf conf_index ||| BIT resource_id) }
        else d1
      let d3 :=
        match d2.lock_conf with
        | some lc =>
          if rif_conf &&& BIT RIF_LOCK_SHIFT != 0 then
            { d2 with
              lock_conf := some (updf lc conf_index
                (lc conf_index ||| BIT resource_id)) }
          else d2
        | none => d2
      let d4 :=
        { d3 with
          cid_confs := updf d3.cid_confs resource_id
            ((rif_conf &&& RIF_PERx_CID_MASK) >>> RIF_PERx_CID_SHIFT) }
      some
        { d4 with
          access_mask := updf d4.access_mask conf_index
            (d4.access_mask conf_index ||| BIT resource_id) }

/-- `stm32_rif_release_semaphore` from `core/drivers/firewall/stm32_rif.c`,
embedded parametrically in the values `r0`, `r1`, `r2`, `r3` returned by
its four successive MMIO reads of the SEMCR register (first availability
check, the read inside `io_clrbits32`, the availability re-check, and the
holder-CID read); under concurrent compartments these may all differ.
The returned list is the sequence of values written to the register.
`none` models the failed `assert(msb_nb_cid_supp <= MAX_CID_BITFIELD)`. -/
def stm32_rif_release_semaphore (nb_cid_supp r0 r1 r2 r3 : Nat) :
    Option (TEE_Result × List Nat) :=
  if msb_nb_cid_supp nb_cid_supp > MAX_CID_BITFIELD then none
  else if r0 &&& _SEMCR_MUTEX == 0 then some (TEE_Result.success, [])
  else
    let w := r1 &&& NOT32 _SEMCR_MUTEX
    if r2 &&& _SEMCR_MUTEX != 0 &&
       (r3 &&& rif_scid_mask nb_cid_supp) >>> _CIDCFGR_SCID_SHIFT == RIF_CID1
    then some (TEE_Result.errorAccessDenied, [w])
    else some (TEE_Result.success, [w])

/-! ## RIFSC controller: `core/drivers/firewall/stm32_rifsc.c` -/

def _PERIPH_IDS_PER_REG : Nat := 32

def RIFSC_RISC_CIDCFGR_CFEN_MASK : Nat := BIT 0

def RIFSC_RISC_CIDCFGR_SEM_EN_MASK : Nat := BIT 1

def RIFSC_RISC_CIDCFGR_SCID_SHIFT : Nat := 4

def RIFSC_RISC_CIDCFGR_SCID_MASK : Nat := GENMASK_32 6 4

def RIFSC_RISC_CIDCFGR_SEML_SHIFT : Nat := 16

def RIFSC_RIMC_CIDSEL_MASK : Nat := BIT 2

def RIFSC_RIMC_MCID_MASK : Nat := GENMASK_32 6 4

def RIFSC_RIMC_MCID_SHIFT : Nat := 4

/-- Modelled from the spec: DT binding field of the RIMU configuration cell
holding `RIMU_ID_OFFSET + rimu index` (binding header not among the
provided sources). -/
def RIMUPROT_RIMC_M_ID_SHIFT : Nat := 0

/-- Modelled from the spec: see `RIMUPROT_RIMC_M_ID_SHIFT`. -/
def RIMUPROT_RIMC_M_ID_MASK : Nat := GENMASK_32 7 0

/-- Modelled from the spec: DT binding field of the RIMU configuration cell
holding the RIMC_ATTR register image. -/
def RIMUPROT_RIMC_ATTRx_SHIFT : Nat := 8

/-- Modelled from the spec: see `RIMUPROT_RIMC_ATTRx_SHIFT`. -/
def RIMUPROT_RIMC_ATTRx_MASK : Nat := GENMASK_32 31 8

/-- C struct `risup_cfg` from `core/include/drivers/stm32_rifsc.h`. -/
structure risup_cfg where
  cid_attr : Nat
  id : Nat
  sec : Bool
  priv : Bool
  lock : Bool
  pm_sem : Bool
  deriving Inhabited, DecidableEq, Repr

/-- C struct `rimu_cfg` from `core/include/drivers/stm32_rifsc.h`. -/
structure rimu_cfg where
  id : Nat
  risup_id : Nat
  attr : Nat
  deriving Inhabited, DecidableEq, Repr

/-- The fields of C struct `rifsc_driver_data` the embedded operations
consume (hardware capability flags and counters). -/
structure rifsc_driver_data where
  nb_rimu : Nat
  nb_risup : Nat
  rif_en : Bool
  sec_en : Bool
  priv_en : Bool
  deriving Inhabited

/-- The fields of C struct `rifsc_platdata` the embedded operations
consume.  `risups` is the parsed `risup` array used by the RIMU erratum
check. -/
structure rifsc_platdata where
  drv : rifsc_driver_data
  is_tdcid : Bool
  errata_ahbrisab : Bool
  risups : List risup_cfg
  deriving Inhabited

/-- Modelled from the spec (sections 3 and 4.1): state of one
hardware-arbitrated SEMCR semaphore register.  The semaphore is taken iff
the mutex bit is set; the holder CID is meaningful only while taken. -/
inductive SemHW where
  | free
  | taken (cid : Nat)
  deriving DecidableEq, Repr

/-- Modelled from the spec: the value an MMIO read of the SEMCR register
returns (mutex bit plus the hardware-reported holder CID field). -/
def semcrValue : SemHW → Nat
  | SemHW.free => 0
  | SemHW.taken c => _SEMCR_MUTEX + (c <<< _SEMCR_SEMCID_SHIFT) % 2 ^ 32

/-- RIFSC register block state.  `seccfgr`, `privcfgr` and `rcfglockr` are
indexed by 32-resource register word; `cidcfgr`, `sem` by resource id;
`rimc_attr` by RIMU id. -/
structure RifscRegs where
  seccfgr : Nat → Nat
  privcfgr : Nat → Nat
  rcfglockr : Nat → Nat
  cidcfgr : Nat → Nat
  rimc_attr : Nat → Nat
  sem : Nat → SemHW

/-- One MMIO write performed by the RIFSC driver, for frame reasoning:
which registers a call does (not) touch. -/
inductive RifscWrite where
  | secW (word val : Nat)
  | privW (word val : Nat)
  | cidW (id val : Nat)
  | lockW (word val : Nat)
  | rimcW (id val : Nat)
  | semSetW (id : Nat)
  | semClrW (id : Nat)
  deriving DecidableEq, Repr

/-- `stm32_rif_acquire_semaphore` from `stm32_rif.c`, acting on the
modelled SEMCR hardware state.  `io_setbits32(addr, _SEMCR_MUTEX)` on a
free semaphore hands it to the compartment that wins the hardware
arbitration (`winner`; `RIF_CID1` when no other compartment races) and is
ignored on a taken one; the function then re-reads and succeeds only if
the register reports the semaphore taken with holder CID `RIF_CID1`.
`none` models the failed `assert`. -/
def stm32_rif_acquire_semaphore_hw (nb_cid_supp winner : Nat) (s : SemHW) :
    Option (TEE_Result × SemHW) :=
  if msb_nb_cid_supp nb_cid_supp ≥ MAX_CID_BITFIELD then none
  else
    let s1 := match s with
      | SemHW.free => SemHW.taken winner
      | SemHW.taken c => SemHW.taken c
    if semcrValue s1 &&& _SEMCR_MUTEX == 0 ||
       (semcrValue s1 &&& rif_scid_mask nb_cid_supp) >>>
         _CIDCFGR_SCID_SHIFT != RIF_CID1 then
      some (TEE_Result.errorAccessDenied, s1)
    else some (TEE_Result.success, s1)

/-- `stm32_rif_release_semaphore` from `stm32_rif.c`, acting on the
modelled SEMCR hardware state (deterministic counterpart of the
read-trace embedding `stm32_rif_release_semaphore`): clearing the mutex
bit frees the semaphore.  The boolean reports whether a register write was
performed. -/
def stm32_rif_release_semaphore_hw (nb_cid_supp : Nat) (s : SemHW) :
    Option (TEE_Result × SemHW × Bool) :=
  if msb_nb_cid_supp nb_cid_supp > MAX_CID_BITFIELD then none
  else if semcrValue s &&& _SEMCR_MUTEX == 0 then
    some (TEE_Result.success, s, false)
  else
    let s1 := SemHW.free
    if semcrValue s1 &&& _SEMCR_MUTEX != 0 &&
       (semcrValue s1 &&& rif_scid_mask nb_cid_supp) >>>
         _CIDCFGR_SCID_SHIFT == RIF_CID1 then
      some (TEE_Result.errorAccessDenied, s1, true)
    else some (TEE_Result.success, s1, true)

/-- Security-bit write phase of `stm32_risup_cfg` (the
`io_clrsetbits32_stm32shregs` on SECCFGR when the hardware supports
security configuration), threading the register state and write log. -/
def risup_cfg_sec_phase (drv : rifsc_driver_data)
    (x : RifscRegs × List RifscWrite) (word shift : Nat) (sec : Bool) :
    RifscRegs × List RifscWrite :=
  if drv.sec_en then
    let v := x.1.seccfgr word &&& NOT32 (BIT shift) |||
             (if sec then 1 else 0) <<< shift
    ({ x.1 with seccfgr := updf x.1.seccfgr word v },
     x.2 ++ [RifscWrite.secW word v])
  else x

/-- Privilege-bit write phase of `stm32_risup_cfg`. -/
def risup_cfg_priv_phase (drv : rifsc_driver_data)
    (x : RifscRegs × List RifscWrite) (word shift : Nat) (priv : Bool) :
    RifscRegs × List RifscWrite :=
  if drv.priv_en then
    let v := x.1.privcfgr word &&& NOT32 (BIT shift) |||
             (if priv then 1 else 0) <<< shift
    ({ x.1 with privcfgr := updf x.1.privcfgr word v },
     x.2 ++ [RifscWrite.privW word v])
  else x

/-- TDCID-gated phase of `stm32_risup_cfg`: the CID-filtering word write
(when the hardware supports RIF) and the RCFGLOCKR lock-bit write. -/
def risup_cfg_tdcid_phase (drv : rifsc_driver_data) (is_tdcid : Bool)
    (x : RifscRegs × List RifscWrite) (risup : risup_cfg)
    (word shift : Nat) : RifscRegs × List RifscWrite :=
  if is_tdcid then
    let pa :=
      if drv.rif_en then
        ({ x.1 with cidcfgr := updf x.1.cidcfgr risup.id risup.cid_attr },
         x.2 ++ [RifscWrite.cidW risup.id risup.cid_attr])
      else x
    if risup.lock then
      let v := pa.1.rcfglockr word ||| BIT shift
      ({ pa.1 with rcfglockr := updf pa.1.rcfglockr word v },
       pa.2 ++ [RifscWrite.lockW word v])
    else pa
  else x

/-- Semaphore settling phase of `stm32_risup_cfg`: release when the
resource is not in correct semaphore mode or not secured (reading the
live SECCFGR register), else acquire; a failed semaphore operation maps
to `TEE_ERROR_ACCESS_DENIED`. -/
def risup_cfg_sem_phase (winner : Nat) (risup : risup_cfg)
    (word shift : Nat) (x : RifscRegs × List RifscWrite) :
    Option (TEE_Result × RifscRegs × List RifscWrite) :=
  if SEM_MODE_INCORRECT risup.cid_attr ||
     x.1.seccfgr word &&& BIT shift == 0 then
    match stm32_rif_release_semaphore_hw MAX_CID_SUPPORTED
        (x.1.sem risup.id) with
    | none => none
    | some (res, s1, wrote) =>
      let st4 := { x.1 with sem := updf x.1.sem risup.id s1 }
      let log4 := x.2 ++ (if wrote then [RifscWrite.semClrW risup.id] else [])
      if res ≠ TEE_Result.success then
        some (TEE_Result.errorAccessDenied, st4, log4)
      else some (TEE_Result.success, st4, log4)
  else
    match stm32_rif_acquire_semaphore_hw MAX_CID_SUPPORTED winner
        (x.1.sem risup.id) with
    | none => none
    | some (res, s1) =>
      let st4 := { x.1 with sem := updf x.1.sem risup.id s1 }
      let log4 := x.2 ++ [RifscWrite.semSetW risup.id]
      if res ≠ TEE_Result.success then
        some (TEE_Result.errorAccessDenied, st4, log4)
      else some (TEE_Result.success, st4, log4)

/-- `stm32_risup_cfg` from `core/drivers/firewall/stm32_rifsc.c`:
security/privilege bit writes, TDCID-gated CID-filtering and lock writes,
then the semaphore settling step.  Returns the result, the new register
state and the list of MMIO writes performed. -/
def stm32_risup_cfg (pd : rifsc_platdata) (winner : Nat) (st : RifscRegs)
    (risup : risup_cfg) : Option (TEE_Result × RifscRegs × List RifscWrite) :=
  if risup.id ≥ pd.drv.nb_risup then
    some (TEE_Result.errorBadParameters, st, [])
  else
    risup_cfg_sem_phase winner risup (risup.id / _PERIPH_IDS_PER_REG)
      (risup.id % _PERIPH_IDS_PER_REG)
      (risup_cfg_tdcid_phase pd.drv pd.is_tdcid
        (risup_cfg_priv_phase pd.drv
          (risup_cfg_sec_phase pd.drv (st, []) (risup.id / _PERIPH_IDS_PER_REG)
            (risup.id % _PERIPH_IDS_PER_REG) risup.sec)
          (risup.id / _PERIPH_IDS_PER_REG) (risup.id % _PERIPH_IDS_PER_REG)
          risup.priv)
        risup (risup.id / _PERIPH_IDS_PER_REG)
        (risup.id % _PERIPH_IDS_PER_REG))

/-- Write-log classifier: is this a CIDCFGR or RCFGLOCKR write? -/
def is_cid_or_lock_write : RifscWrite → Bool
  | RifscWrite.cidW _ _ => true
  | RifscWrite.lockW _ _ => true
  | _ => false

/-- Modelled from the spec: RIMU-to-RISUP pairing table `rimu_risup` (the
`STM32MP25_RIFSC_*_ID` constants come from a binding header not among the
provided sources; representative distinct identifiers are used). -/
def rimu_risup : List (Nat × Nat) :=
  [(0, 0), (1, 76), (2, 77), (3, 78), (4, 66), (5, 67), (6, 60), (7, 61),
   (8, 68), (9, 69), (10, 87), (11, 0), (12, 0), (13, 0), (14, 89), (15, 90)]

/-- `stm32_rimu_errata_ahbrisab` from `stm32_rifsc.c` (`CFG_INSECURE`
disabled, so the erratum violations panic, modelled as `none`).  Returns
the possibly updated `rimu_cfg`. -/
def stm32_rimu_errata_ahbrisab (pd : rifsc_platdata) (st : RifscRegs)
    (rimu : rimu_cfg) : Option rimu_cfg :=
  if !pd.errata_ahbrisab then some rimu
  else
    let rimu1 :=
      match rimu_risup.find? (fun p => rimu.id == p.1) with
      | some p => { rimu with risup_id := p.2 }
      | none => rimu
    if rimu1.attr &&& RIFSC_RIMC_CIDSEL_MASK != 0 then
      if (rimu1.attr &&& RIFSC_RIMC_MCID_MASK) >>> RIFSC_RIMC_MCID_SHIFT ==
         RIF_CID0 then none
      else some rimu1
    else
      if rimu1.risup_id == 0 then none
      else
        match pd.risups.find? (fun r => rimu1.risup_id == r.id) with
        | none => none
        | some risup =>
          let risup_cidcfgr := st.cidcfgr risup.id
          if risup_cidcfgr &&& RIFSC_RISC_CIDCFGR_CFEN_MASK == 0 ||
             (risup_cidcfgr &&& RIFSC_RISC_CIDCFGR_SEM_EN_MASK == 0 &&
              (risup_cidcfgr &&& RIFSC_RISC_CIDCFGR_SCID_MASK) >>>
                RIFSC_RISC_CIDCFGR_SCID_SHIFT == RIF_CID0) ||
             (risup_cidcfgr &&& RIFSC_RISC_CIDCFGR_SEM_EN_MASK != 0 &&
              risup_cidcfgr &&& BIT RIFSC_RISC_CIDCFGR_SEML_SHIFT != 0) then
            none
          else some rimu1

/-- `stm32_rimu_cfg` from `stm32_rifsc.c`. -/
def stm32_rimu_cfg (pd : rifsc_platdata) (st : RifscRegs) (rimu : rimu_cfg) :
    Option (TEE_Result × RifscRegs × List RifscWrite) :=
  if rimu.id ≥ pd.drv.nb_rimu then
    some (TEE_Result.errorBadParameters, st, [])
  else
    match stm32_rimu_errata_ahbrisab pd st rimu with
    | none => none
    | some rimu1 =>
      if pd.drv.rif_en then
        some (TEE_Result.success,
              { st with rimc_attr := updf st.rimc_attr rimu1.id rimu1.attr },
              [RifscWrite.rimcW rimu1.id rimu1.attr])
      else some (TEE_Result.success, st, [])

/-- `stm32_rifsc_set_config` from `stm32_rifsc.c` (the firewall
`set_conf` operation; `firewall->args[0]` is `arg`). -/
def stm32_rifsc_set_config (pd : rifsc_platdata) (winner : Nat)
    (st : RifscRegs) (arg : Nat) :
    Option (TEE_Result × RifscRegs × List RifscWrite) :=
  let id := arg &&& RIF_PER_ID_MASK
  let conf := arg
  if id < RIMU_ID_OFFSET then
    let risup : risup_cfg :=
      { id := id
        sec := conf &&& BIT RIF_SEC_SHIFT != 0
        priv := conf &&& BIT RIF_PRIV_SHIFT != 0
        lock := conf &&& BIT RIF_LOCK_SHIFT != 0
        cid_attr := (conf &&& RIF_PERx_CID_MASK) >>> RIF_PERx_CID_SHIFT
        pm_sem := false }
    if !pd.is_tdcid && st.cidcfgr risup.id != risup.cid_attr then
      some (TEE_Result.errorBadParameters, st, [])
    else stm32_risup_cfg pd winner st risup
  else if !pd.is_tdcid then
    some (TEE_Result.errorAccessDenied, st, [])
  else
    let rimu : rimu_cfg :=
      { id := (conf &&& RIMUPROT_RIMC_M_ID_MASK) >>> RIMUPROT_RIMC_M_ID_SHIFT -
              RIMU_ID_OFFSET
        risup_id := 0
        attr := (conf &&& RIMUPROT_RIMC_ATTRx_MASK) >>> RIMUPROT_RIMC_ATTRx_SHIFT }
    stm32_rimu_cfg pd st rimu

/-- `stm32_rifsc_reconfigure_risup` from `stm32_rifsc.c`.  `risups` models
the `rifsc_pdata.risup` shadow array (total map over ids); it is returned
possibly updated. -/
def stm32_rifsc_reconfigure_risup (pd : rifsc_platdata) (winner : Nat)
    (st : RifscRegs) (risups : Nat → risup_cfg) (risup_id cid : Nat)
    (sec priv cfen : Bool) :
    Option (TEE_Result × RifscRegs × (Nat → risup_cfg)) :=
  if risup_id > pd.drv.nb_risup || cid > MAX_CID_SUPPORTED then
    some (TEE_Result.errorBadParameters, st, risups)
  else if st.rcfglockr (risup_id / _PERIPH_IDS_PER_REG) &&&
          BIT (risup_id % _PERIPH_IDS_PER_REG) != 0 then
    some (TEE_Result.errorAccessDenied, st, risups)
  else
    let a0 := (cid <<< RIFSC_RISC_CIDCFGR_SCID_SHIFT) % 2 ^ 32
    let a1 := if cfen then a0 ||| RIFSC_RISC_CIDCFGR_CFEN_MASK
              else a0 &&& NOT32 RIFSC_RISC_CIDCFGR_CFEN_MASK
    let r := { risups risup_id with cid_attr := a1, sec := sec, priv := priv }
    let risups1 := updf risups risup_id r
    match stm32_risup_cfg pd winner st r with
    | none => none
    | some (res, st1, _log) =>
      if res ≠ TEE_Result.success then some (res, st1, risups1)
      else some (TEE_Result.success, st1, risups1)

/-! ## ETZPC legacy firewall: `core/drivers/firewall/stm32_etzpc.c`
(configuration `CFG_STM32MP15`, `CFG_WITH_PAGER` disabled, so
`pager_permits_decprot_config` always permits). -/

def ETZPC_TZMA0_SIZE_LOCK : Nat := BIT 31

def ETZPC_DECPROT0_MASK : Nat := GENMASK_32 1 0

def DECPROT_SHIFT : Nat := 1

def IDS_PER_DECPROT_REGS : Nat := 16

def IDS_PER_DECPROT_LOCK_REGS : Nat := 32

/-- C enum `etzpc_decprot_attributes` from
`core/include/drivers/stm32_etzpc.h`. -/
def ETZPC_DECPROT_S_RW : Nat := 0

/-- See `ETZPC_DECPROT_S_RW`. -/
def ETZPC_DECPROT_NS_R_S_W : Nat := 1

/-- See `ETZPC_DECPROT_S_RW`. -/
def ETZPC_DECPROT_MCU_ISOLATION : Nat := 2

/-- See `ETZPC_DECPROT_S_RW`. -/
def ETZPC_DECPROT_NS_RW : Nat := 3

/-- Modelled from the spec: device-tree `DECPROT` binding values (binding
header not among the provided sources); they mirror the driver enum. -/
def DECPROT_S_RW : Nat := 0

/-- Modelled from the spec: see `DECPROT_S_RW`. -/
def DECPROT_NS_R_S_W : Nat := 1

/-- Modelled from the spec: see `DECPROT_S_RW`. -/
def DECPROT_MCU_ISOLATION : Nat := 2

/-- Modelled from the spec: see `DECPROT_S_RW`. -/
def DECPROT_NS_RW : Nat := 3

/-- Modelled from the spec: layout of the ETZPC firewall query word
(binding header not among the provided sources): peripheral/TZMA id in the
low half-word, DECPROT mode above it, then the lock flag. -/
def ETZPC_ID_MASK : Nat := GENMASK_32 15 0

/-- Modelled from the spec: see `ETZPC_ID_MASK`. -/
def ETZPC_MODE_SHIFT : Nat := 16

/-- Modelled from the spec: see `ETZPC_ID_MASK`. -/
def ETZPC_MODE_MASK : Nat := GENMASK_32 17 16

/-- Modelled from the spec: see `ETZPC_ID_MASK`. -/
def ETZPC_LOCK_MASK : Nat := BIT 18

/-- Modelled from the spec: ETZPC ids of the two TZMA range protections
(values chosen outside the securable-peripheral id range). -/
def ETZPC_TZMA0_ID : Nat := 4096

/-- Modelled from the spec: see `ETZPC_TZMA0_ID`. -/
def ETZPC_TZMA1_ID : Nat := 4097

/-- Modelled from the spec: ETZPC ids of the securable internal RAM banks
(platform header not among the provided sources). -/
def STM32MP1_ETZPC_SRAM1_ID : Nat := 52

/-- Modelled from the spec: see `STM32MP1_ETZPC_SRAM1_ID`. -/
def STM32MP1_ETZPC_SRAM2_ID : Nat := 53

/-- Modelled from the spec: see `STM32MP1_ETZPC_SRAM1_ID`. -/
def STM32MP1_ETZPC_SRAM3_ID : Nat := 54

/-- Modelled from the spec: see `STM32MP1_ETZPC_SRAM1_ID`. -/
def STM32MP1_ETZPC_SRAM4_ID : Nat := 55

/-- Modelled from the spec: see `STM32MP1_ETZPC_SRAM1_ID`. -/
def STM32MP1_ETZPC_RETRAM_ID : Nat := 56

def SMALL_PAGE_SIZE : Nat := 4096

/-- Modelled from the spec: platform memory map consumed by
`stm32_etzpc_configure_memory` (bases/sizes of the protected banks and the
`stm32mp1_pa_or_sram_alias_pa` aliasing helper, all external to the
provided sources). -/
structure stm32mp1_plat where
  sram1_base : Nat
  sram1_size : Nat
  sram2_base : Nat
  sram2_size : Nat
  sram3_base : Nat
  sram3_size : Nat
  sram4_base : Nat
  sram4_size : Nat
  retram_base : Nat
  retram_size : Nat
  rom_base : Nat
  rom_size : Nat
  sysram_base : Nat
  sysram_size : Nat
  aliasPa : Nat → Nat
  deriving Inhabited

/-- ETZPC device state: hardware capability counters plus the DECPROT,
DECPROT-lock and TZMA register banks (each a map from register word
index). -/
structure etzpc_device where
  num_tzma : Nat
  num_per_sec : Nat
  decprot : Nat → Nat
  decprot_lock : Nat → Nat
  tzma : Nat → Nat

/-- `etzpc_binding2decprot` from `stm32_etzpc.c` (`CFG_STM32MP15`, so the
MCU-isolation binding is accepted); `none` models `panic()`. -/
def etzpc_binding2decprot (mode : Nat) : Option Nat :=
  if mode == DECPROT_S_RW then some ETZPC_DECPROT_S_RW
  else if mode == DECPROT_NS_R_S_W then some ETZPC_DECPROT_NS_R_S_W
  else if mode == DECPROT_MCU_ISOLATION then some ETZPC_DECPROT_MCU_ISOLATION
  else if mode == DECPROT_NS_RW then some ETZPC_DECPROT_NS_RW
  else none

/-- `etzpc_do_configure_decprot` from `stm32_etzpc.c`. -/
def etzpc_do_configure_decprot (dev : etzpc_device) (decprot_id attr : Nat) :
    etzpc_device :=
  let offset := decprot_id / IDS_PER_DECPROT_REGS
  let shift := (decprot_id % IDS_PER_DECPROT_REGS) <<< DECPROT_SHIFT
  let masked_decprot := attr &&& ETZPC_DECPROT0_MASK
  { dev with
    decprot := updf dev.decprot offset
      (dev.decprot offset &&& NOT32 (ETZPC_DECPROT0_MASK <<< shift) |||
       masked_decprot <<< shift) }

/-- `etzpc_do_get_decprot` from `stm32_etzpc.c`. -/
def etzpc_do_get_decprot (dev : etzpc_device) (decprot_id : Nat) : Nat :=
  dev.decprot (decprot_id / IDS_PER_DECPROT_REGS) >>>
    ((decprot_id % IDS_PER_DECPROT_REGS) <<< DECPROT_SHIFT) &&&
  ETZPC_DECPROT0_MASK

/-- `etzpc_do_lock_decprot` from `stm32_etzpc.c` (a plain `io_write32` of
the single lock bit to the lock register word). -/
def etzpc_do_lock_decprot (dev : etzpc_device) (decprot_id : Nat) :
    etzpc_device :=
  { dev with
    decprot_lock := updf dev.decprot_lock
      (decprot_id / IDS_PER_DECPROT_LOCK_REGS)
      (BIT (decprot_id % IDS_PER_DECPROT_LOCK_REGS)) }

/-- `decprot_is_locked` from `stm32_etzpc.c`. -/
def decprot_is_locked (dev : etzpc_device) (decprot_id : Nat) : Bool :=
  dev.decprot_lock (decprot_id / IDS_PER_DECPROT_LOCK_REGS) &&&
    BIT (decprot_id % IDS_PER_DECPROT_LOCK_REGS) != 0

/-- `etzpc_do_configure_tzma` from `stm32_etzpc.c` (the `tzma_value`
parameter is a C `uint16_t`, hence the truncation). -/
def etzpc_do_configure_tzma (dev : etzpc_device) (tzma_id tzma_value : Nat) :
    etzpc_device :=
  { dev with tzma := updf dev.tzma tzma_id (tzma_value % 2 ^ 16) }

/-- `etzpc_do_get_tzma` from `stm32_etzpc.c` (the register value is
returned through a C `uint16_t`, hence the truncation). -/
def etzpc_do_get_tzma (dev : etzpc_device) (tzma_id : Nat) : Nat :=
  dev.tzma tzma_id % 2 ^ 16

/-- `etzpc_do_lock_tzma` from `stm32_etzpc.c`. -/
def etzpc_do_lock_tzma (dev : etzpc_device) (tzma_id : Nat) : etzpc_device :=
  { dev with
    tzma := updf dev.tzma tzma_id (dev.tzma tzma_id ||| ETZPC_TZMA0_SIZE_LOCK) }

/-- `tzma_is_locked` from `stm32_etzpc.c`. -/
def tzma_is_locked (dev : etzpc_device) (tzma_id : Nat) : Bool :=
  dev.tzma tzma_id &&& ETZPC_TZMA0_SIZE_LOCK != 0

/-- `stm32_etzpc_check_access` from `stm32_etzpc.c`
(`firewall->args[0]` is `arg`); `none` models the `panic()` inside
`etzpc_binding2decprot`. -/
def stm32_etzpc_check_access (dev : etzpc_device) (arg : Nat) :
    Option TEE_Result :=
  match etzpc_binding2decprot ((arg &&& ETZPC_MODE_MASK) >>> ETZPC_MODE_SHIFT) with
  | none => none
  | some attr_req =>
    if arg &&& ETZPC_ID_MASK < dev.num_per_sec then
      if etzpc_do_get_decprot dev (arg &&& ETZPC_ID_MASK) == attr_req ||
         ((attr_req == ETZPC_DECPROT_S_RW ||
           attr_req == ETZPC_DECPROT_NS_R_S_W) &&
          etzpc_do_get_decprot dev (arg &&& ETZPC_ID_MASK) !=
            ETZPC_DECPROT_MCU_ISOLATION) ||
         ((attr_req == ETZPC_DECPROT_NS_RW ||
           attr_req == ETZPC_DECPROT_NS_R_S_W) &&
          etzpc_do_get_decprot dev (arg &&& ETZPC_ID_MASK) !=
            ETZPC_DECPROT_MCU_ISOLATION &&
          etzpc_do_get_decprot dev (arg &&& ETZPC_ID_MASK) !=
            ETZPC_DECPROT_S_RW) then
        some TEE_Result.success
      else some TEE_Result.errorAccessDenied
    else some TEE_Result.errorBadParameters

/-- `stm32_etzpc_configure` from `stm32_etzpc.c` (the firewall `set_conf`
operation; with `CFG_WITH_PAGER` disabled `pager_permits_decprot_config`
always permits). -/
def stm32_etzpc_configure (dev : etzpc_device) (arg : Nat) :
    Option (TEE_Result × etzpc_device) :=
  let id := arg &&& ETZPC_ID_MASK
  if id < dev.num_per_sec then
    match etzpc_binding2decprot ((arg &&& ETZPC_MODE_MASK) >>>
        ETZPC_MODE_SHIFT) with
    | none => none
    | some attr =>
      if decprot_is_locked dev id then
        if etzpc_do_get_decprot dev id ≠ attr then
          some (TEE_Result.errorAccessDenied, dev)
        else some (TEE_Result.success, dev)
      else
        let d1 := etzpc_do_configure_decprot dev id attr
        let d2 := if arg &&& ETZPC_LOCK_MASK != 0 then
                    etzpc_do_lock_decprot d1 id
                  else d1
        some (TEE_Result.success, d2)
  else some (TEE_Result.errorBadParameters, dev)

/-- `stm32_etzpc_configure_memory` from `stm32_etzpc.c` (the firewall
`set_memory_conf` operation), covering both the internal-RAM DECPROT
branch and the TZMA branch. -/
def stm32_etzpc_configure_memory (plat : stm32mp1_plat) (dev : etzpc_device)
    (arg paddr size : Nat) : Option (TEE_Result × etzpc_device) :=
  let id := arg &&& ETZPC_ID_MASK
  if id < dev.num_per_sec &&
     (id == STM32MP1_ETZPC_SRAM1_ID || id == STM32MP1_ETZPC_SRAM2_ID ||
      id == STM32MP1_ETZPC_SRAM4_ID || id == STM32MP1_ETZPC_RETRAM_ID ||
      id == STM32MP1_ETZPC_SRAM3_ID) then
    let paddr1 := plat.aliasPa paddr
    if (id == STM32MP1_ETZPC_SRAM1_ID &&
        (paddr1 != plat.sram1_base || size != plat.sram1_size)) ||
       (id == STM32MP1_ETZPC_SRAM2_ID &&
        (paddr1 != plat.sram2_base || size != plat.sram2_size)) ||
       (id == STM32MP1_ETZPC_SRAM3_ID &&
        (paddr1 != plat.sram3_base || size != plat.sram3_size)) ||
       (id == STM32MP1_ETZPC_SRAM4_ID &&
        (paddr1 != plat.sram4_base || size != plat.sram4_size)) ||
       (id == STM32MP1_ETZPC_RETRAM_ID &&
        (paddr1 != plat.retram_base || size != plat.retram_size)) then
      some (TEE_Result.errorBadParameters, dev)
    else
      match etzpc_binding2decprot ((arg &&& ETZPC_MODE_MASK) >>>
          ETZPC_MODE_SHIFT) with
      | none => none
      | some attr =>
        if decprot_is_locked dev id then
          if etzpc_do_get_decprot dev id ≠ attr then
            some (TEE_Result.errorAccessDenied, dev)
          else some (TEE_Result.success, dev)
        else
          let d1 := etzpc_do_configure_decprot dev id attr
          let d2 := if arg &&& ETZPC_LOCK_MASK != 0 then
                      etzpc_do_lock_decprot d1 id
                    else d1
          some (TEE_Result.success, d2)
  else if id == ETZPC_TZMA0_ID || id == ETZPC_TZMA1_ID then
    if (id == ETZPC_TZMA0_ID &&
        (paddr != plat.rom_base || size > plat.rom_size)) ||
       (id == ETZPC_TZMA1_ID &&
        (paddr != plat.sysram_base || size > plat.sysram_size)) then
      some (TEE_Result.errorBadParameters, dev)
    else
      let tzma_id := if id == ETZPC_TZMA0_ID then 0 else 1
      if size % SMALL_PAGE_SIZE != 0 then
        some (TEE_Result.errorBadParameters, dev)
      else
        let total_sz := (size + (SMALL_PAGE_SIZE - 1)) / SMALL_PAGE_SIZE
        if tzma_is_locked dev tzma_id then
          if etzpc_do_get_tzma dev tzma_id ≠ total_sz then
            some (TEE_Result.errorAccessDenied, dev)
          else some (TEE_Result.success, dev)
        else some (TEE_Result.success,
                   etzpc_do_configure_tzma dev tzma_id total_sz)
  else some (TEE_Result.errorBadParameters, dev)

/-! ## RISAF memory-region engine: `core/drivers/firewall/stm32_risaf.c`
(`CFG_STM32MP21` disabled). -/

def _RISAF_REG_CFGR_BREN : Nat := BIT 0

def _RISAF_REG_CFGR_SEC : Nat := BIT 8

def _RISAF_REG_CFGR_ENC : Nat := BIT 15

def _RISAF_REG_CFGR_PRIVC_MASK : Nat := GENMASK_32 23 16

def _RISAF_REG_CIDCFGR_RDENC_SHIFT : Nat := 0

def _RISAF_REG_CIDCFGR_RDENC_MASK : Nat := GENMASK_32 7 0

def _RISAF_REG_CIDCFGR_WRENC_SHIFT : Nat := 16

def _RISAF_REG_CIDCFGR_WRENC_MASK : Nat := GENMASK_32 23 16

/-- C macro `_RISAF_REG_READ_OK(reg, cid)` from `stm32_risaf.c`. -/
def _RISAF_REG_READ_OK (reg cid : Nat) : Nat :=
  reg &&& (BIT cid <<< _RISAF_REG_CIDCFGR_RDENC_SHIFT) % 2 ^ 32

/-- C macro `_RISAF_REG_WRITE_OK(reg, cid)` from `stm32_risaf.c`. -/
def _RISAF_REG_WRITE_OK (reg cid : Nat) : Nat :=
  reg &&& (BIT cid <<< _RISAF_REG_CIDCFGR_WRENC_SHIFT) % 2 ^ 32

/-- Modelled from the spec: layout of the 32-bit `st,protreg` RISAF
device-tree word (binding header not among the provided sources): region
id in the low nibble, then enable, security, a two-bit encryption field, a
privilege CID byte, and read/write CID-enable bytes. -/
def DT_RISAF_REG_ID_MASK : Nat := GENMASK_32 3 0

/-- Modelled from the spec: see `DT_RISAF_REG_ID_MASK`. -/
def DT_RISAF_EN_SHIFT : Nat := 4

/-- Modelled from the spec: see `DT_RISAF_REG_ID_MASK`. -/
def DT_RISAF_EN_MASK : Nat := BIT 4

/-- Modelled from the spec: see `DT_RISAF_REG_ID_MASK`. -/
def DT_RISAF_SEC_SHIFT : Nat := 5

/-- Modelled from the spec: see `DT_RISAF_REG_ID_MASK`. -/
def DT_RISAF_SEC_MASK : Nat := BIT 5

/-- Modelled from the spec: see `DT_RISAF_REG_ID_MASK`. -/
def DT_RISAF_ENC_SHIFT : Nat := 6

/-- Modelled from the spec: see `DT_RISAF_REG_ID_MASK`. -/
def DT_RISAF_ENC_MASK : Nat := GENMASK_32 7 6

/-- Modelled from the spec: see `DT_RISAF_REG_ID_MASK`. -/
def DT_RISAF_PRIV_SHIFT : Nat := 8

/-- Modelled from the spec: see `DT_RISAF_REG_ID_MASK`. -/
def DT_RISAF_PRIV_MASK : Nat := GENMASK_32 15 8

/-- Modelled from the spec: see `DT_RISAF_REG_ID_MASK`. -/
def DT_RISAF_READ_SHIFT : Nat := 16

/-- Modelled from the spec: see `DT_RISAF_REG_ID_MASK`. -/
def DT_RISAF_READ_MASK : Nat := GENMASK_32 23 16

/-- Modelled from the spec: see `DT_RISAF_REG_ID_MASK`. -/
def DT_RISAF_WRITE_SHIFT : Nat := 24

/-- Modelled from the spec: see `DT_RISAF_REG_ID_MASK`. -/
def DT_RISAF_WRITE_MASK : Nat := GENMASK_32 31 24

/-- C macro `_RISAF_GET_REGION_ID(cfg)` from `stm32_risaf.c`. -/
def _RISAF_GET_REGION_ID (cfg : Nat) : Nat := cfg &&& DT_RISAF_REG_ID_MASK

/-- C struct `stm32_risaf_region` from `stm32_risaf.c`. -/
structure stm32_risaf_region where
  cfg : Nat
  addr : Nat
  len : Nat
  deriving Inhabited, DecidableEq, Repr

/-- Modelled from the spec: `core_is_buffer_intersect` (a kernel helper
not among the provided sources): two buffers intersect iff both are
non-empty and the half-open address intervals `[b1, b1+s1)` and
`[b2, b2+s2)` meet. -/
def core_is_buffer_intersect (b1 s1 b2 s2 : Nat) : Bool :=
  s1 != 0 && s2 != 0 && b2 < b1 + s1 && b1 < b2 + s2

/-- `risaf_check_region_boundaries` from `stm32_risaf.c`, as a function of
the IP parameters and the region geometry.  `none` models the failed
`assert(region->len != 0)`; the C `uintptr_t` subtractions that can wrap
are taken modulo `2 ^ 64`. -/
def risaf_check_region_boundaries (mem_base mem_size granularity addr len :
    Nat) : Option TEE_Result :=
  if len = 0 then none
  else if addr < mem_base then some TEE_Result.errorBadParameters
  else
    let end_paddr := (mem_base + (mem_size + 2 ^ 64 - 1) % 2 ^ 64) % 2 ^ 64
    if addr > end_paddr ||
       ((addr + 2 ^ 64 - 1) % 2 ^ 64 + len) % 2 ^ 64 > end_paddr then
      some TEE_Result.errorBadParameters
    else if granularity = 0 || addr % granularity != 0 ||
            len % granularity != 0 then
      some TEE_Result.errorBadParameters
    else some TEE_Result.success

/-- `risaf_check_overlap` from `stm32_risaf.c`: the region at position
`index` is checked against every earlier position with a non-null
configuration; the first intersection aborts with `TEE_ERROR_GENERIC`. -/
def risaf_check_overlap (regions : Nat → stm32_risaf_region) (index : Nat) :
    TEE_Result :=
  match (List.range index).find? (fun i =>
      (regions i).cfg != 0 &&
      core_is_buffer_intersect (regions index).addr (regions index).len
        (regions i).addr (regions i).len) with
  | some _ => TEE_Result.errorGeneric
  | none => TEE_Result.success

/-- `stm32_risaf_acquire_access` from `stm32_risaf.c`
(`firewall->args[0]` is `arg`; `cfgrs`/`cidcfgrs` are the per-region CFGR
and CIDCFGR registers; the clock enable is modelled as succeeding). -/
def stm32_risaf_acquire_access (nregions : Nat) (is_tdcid : Bool)
    (cfgrs cidcfgrs : Nat → Nat) (arg : Nat) (rd wr : Bool) : TEE_Result :=
  let id := _RISAF_GET_REGION_ID arg
  if id = 0 || id ≥ nregions then TEE_Result.errorBadParameters
  else
    let cfgr := cfgrs id
    let cidcfgr := cidcfgrs id
    if (cfgr &&& _RISAF_REG_CFGR_BREN == 0 && !is_tdcid) ||
       cfgr &&& _RISAF_REG_CFGR_SEC == 0 ||
       (cidcfgr != 0 &&
        ((rd && _RISAF_REG_READ_OK cidcfgr RIF_CID1 == 0) ||
         (wr && _RISAF_REG_WRITE_OK cidcfgr RIF_CID1 == 0))) then
      TEE_Result.errorAccessDenied
    else TEE_Result.success

/-! ## General bit-manipulation lemmas used by the claim proofs -/

theorem genmask_eq_shifted (h l : Nat) (hl : l ≤ h) (h32 : h < 32) :
    GENMASK_32 h l = (2 ^ (h + 1 - l) - 1) <<< l := by
  have h1 : 2 ^ l ≤ 2 ^ (h + 1) := Nat.pow_le_pow_right (by omega) (by omega)
  have h2 : 2 ^ (h + 1) ≤ 2 ^ 32 := Nat.pow_le_pow_right (by omega) (by omega)
  have h4 : 1 ≤ 2 ^ l := Nat.one_le_two_pow
  have h3 : 2 ^ (h + 1) = 2 ^ (h + 1 - l) * 2 ^ l := by
    rw [← Nat.pow_add]
    congr 1
    omega
  unfold GENMASK_32
  rw [Nat.shiftLeft_eq, Nat.mod_eq_of_lt (by omega), Nat.sub_mul, one_mul, ← h3]

theorem and_genmask (x h l : Nat) (hl : l ≤ h) (h32 : h < 32) :
    x &&& GENMASK_32 h l = ((x >>> l) % 2 ^ (h + 1 - l)) * 2 ^ l := by
  rw [genmask_eq_shifted h l hl h32, ← Nat.shiftLeft_eq]
  apply Nat.eq_of_testBit_eq
  intro i
  simp only [Nat.testBit_and, Nat.testBit_shiftLeft, Nat.testBit_mod_two_pow,
    Nat.testBit_shiftRight, Nat.testBit_two_pow_sub_one]
  by_cases hi : l ≤ i
  · have : l + (i - l) = i := by omega
    simp [ge_iff_le, hi, this]
    cases x.testBit i <;> cases Nat.decLt (i - l) (h + 1 - l) with
    | _ h => simp [h]; try tauto
  · simp [ge_iff_le, hi]

theorem and_bit_eq_zero (x n : Nat) (h : n < 32) :
    (x &&& BIT n = 0) ↔ x.testBit n = false := by
  have hb : BIT n = 2 ^ n := by
    unfold BIT
    exact Nat.mod_eq_of_lt (Nat.pow_lt_pow_right (by omega) h)
  rw [hb, Nat.and_two_pow]
  cases hx : x.testBit n <;> simp [hx]


theorem and_bit_ne_zero (x n : Nat) (h : n < 32) :
    (x &&& BIT n ≠ 0) ↔ x.testBit n = true := by
  rw [← Bool.not_eq_false]
  exact not_congr (and_bit_eq_zero x n h)

theorem and_genmask4 (x m : Nat) (hm : m ≤ 27) :
    x &&& GENMASK_32 (4 + m) 4 = ((x >>> 4) % 2 ^ (m + 1)) * 2 ^ 4 := by
  rw [and_genmask x (4 + m) 4 (by omega) (by omega)]
  have he : 4 + m + 1 - 4 = m + 1 := by omega
  rw [he]

theorem genmask_field (x m : Nat) (hm : m ≤ 27) :
    (x &&& GENMASK_32 (4 + m) 4) >>> 4 = (x >>> 4) % 2 ^ (m + 1) := by
  rw [and_genmask4 x m hm, Nat.shiftRight_eq_div_pow,
    Nat.mul_div_cancel _ (by norm_num)]

theorem msb_le_two_of_le_seven (nb : Nat) (h : nb ≤ 7) :
    msb_nb_cid_supp nb ≤ 2 := by
  interval_cases nb <;> decide

/-- C1: for every CID-filtering configuration word, semaphore register
value, supported-compartment count (at most `MAX_CID_SUPPORTED`, as the
driver asserts) and requesting CID, `stm32_rif_check_access` returns
success if filtering is disabled; if filtering is enabled and semaphore
mode is off, success iff the requesting CID equals the static CID field;
if semaphore mode is on, success iff the requesting CID is in the
semaphore whitelist and (the mutex bit is clear or the reported holder CID
equals the requesting CID); in every other case `TEE_ERROR_ACCESS_DENIED`. -/
theorem C1_rif_check_access_decision_table
    (cidcfgr semcr nb cid : Nat)
    (hnb : nb ≤ MAX_CID_SUPPORTED) (hcid : cid ≤ MAX_CID_SUPPORTED) :
    (stm32_rif_check_access cidcfgr semcr nb cid = some TEE_Result.success ∨
     stm32_rif_check_access cidcfgr semcr nb cid =
       some TEE_Result.errorAccessDenied) ∧
    (stm32_rif_check_access cidcfgr semcr nb cid = some TEE_Result.success ↔
      (cidcfgr.testBit 0 = false ∨
       (cidcfgr.testBit 1 = false ∧
        (cidcfgr &&& rif_scid_mask nb) >>> _CIDCFGR_SCID_SHIFT = cid) ∨
       (cidcfgr.testBit 1 = true ∧
        cidcfgr.testBit (_CIDCFGR_SEMWL_SHIFT + cid) = true ∧
        (semcr.testBit 0 = false ∨
         (semcr &&& rif_scid_mask nb) >>> _CIDCFGR_SCID_SHIFT = cid)))) := by
  have hnb7 : nb ≤ 7 := hnb
  have hcid7 : cid ≤ 7 := hcid
  have hm : msb_nb_cid_supp nb ≤ 2 := msb_le_two_of_le_seven nb hnb7
  have hmask : rif_scid_mask nb = GENMASK_32 (4 + msb_nb_cid_supp nb) 4 := rfl
  have hA : (cidcfgr &&& rif_scid_mask nb) >>> _CIDCFGR_SCID_SHIFT =
      (cidcfgr >>> 4) % 2 ^ (msb_nb_cid_supp nb + 1) := by
    show (cidcfgr &&& rif_scid_mask nb) >>> 4 = _
    rw [hmask]
    exact genmask_field cidcfgr _ (by omega)
  have e1 : (cidcfgr &&& _CIDCFGR_CFEN == 0) = true ↔
      cidcfgr.testBit 0 = false := by
    rw [beq_iff_eq]
    exact and_bit_eq_zero cidcfgr 0 (by norm_num)
  have e4 : (semcr &&& _SEMCR_MUTEX == 0) = true ↔
      semcr.testBit 0 = false := by
    rw [beq_iff_eq]
    exact and_bit_eq_zero semcr 0 (by norm_num)
  have e5 : SCID_OK cidcfgr (rif_scid_mask nb) cid = true ↔
      ((cidcfgr &&& rif_scid_mask nb) >>> _CIDCFGR_SCID_SHIFT = cid ∧
       cidcfgr.testBit 1 = false) := by
    unfold SCID_OK
    rw [Bool.and_eq_true, beq_iff_eq, beq_iff_eq]
    have hAraw : cidcfgr &&& rif_scid_mask nb =
        ((cidcfgr >>> 4) % 2 ^ (msb_nb_cid_supp nb + 1)) * 2 ^ 4 := by
      rw [hmask]
      exact and_genmask4 cidcfgr _ (by omega)
    have hcid16 : (cid <<< _CIDCFGR_SCID_SHIFT) % 2 ^ 32 = cid * 2 ^ 4 := by
      show (cid <<< 4) % 2 ^ 32 = cid * 2 ^ 4
      rw [Nat.shiftLeft_eq]
      exact Nat.mod_eq_of_lt (by omega)
    rw [hA, hcid16, hAraw]
    constructor
    · rintro ⟨hs, hsem⟩
      exact ⟨by omega, (and_bit_eq_zero cidcfgr 1 (by norm_num)).mp hsem⟩
    · rintro ⟨hs, hsem⟩
      exact ⟨by omega, (and_bit_eq_zero cidcfgr 1 (by norm_num)).mpr hsem⟩
  have e6 : SEM_EN_AND_OK cidcfgr cid = true ↔
      (cidcfgr.testBit 0 = true ∧ cidcfgr.testBit 1 = true ∧
       cidcfgr.testBit (_CIDCFGR_SEMWL_SHIFT + cid) = true) := by
    unfold SEM_EN_AND_OK
    rw [Bool.and_eq_true, Bool.and_eq_true, bne_iff_ne, bne_iff_ne, bne_iff_ne]
    constructor
    · rintro ⟨⟨h0, h1⟩, h2⟩
      exact ⟨(and_bit_ne_zero cidcfgr 0 (by norm_num)).mp h0,
             (and_bit_ne_zero cidcfgr 1 (by norm_num)).mp h1,
             (and_bit_ne_zero cidcfgr (16 + cid) (by omega)).mp h2⟩
    · rintro ⟨h0, h1, h2⟩
      exact ⟨⟨(and_bit_ne_zero cidcfgr 0 (by norm_num)).mpr h0,
              (and_bit_ne_zero cidcfgr 1 (by norm_num)).mpr h1⟩,
             (and_bit_ne_zero cidcfgr (16 + cid) (by omega)).mpr h2⟩
  unfold stm32_rif_check_access
  rw [if_neg (by simp only [MAX_CID_BITFIELD]; omega)]
  split_ifs with h1 h2 h3
  · exact ⟨Or.inl rfl, ⟨fun _ => Or.inl (e1.mp h1), fun _ => rfl⟩⟩
  · obtain ⟨hst, hsem⟩ := e5.mp h2
    exact ⟨Or.inl rfl, ⟨fun _ => Or.inr (Or.inl ⟨hsem, hst⟩), fun _ => rfl⟩⟩
  · rw [Bool.and_eq_true, Bool.or_eq_true] at h3
    obtain ⟨hsem, hor⟩ := h3
    obtain ⟨hb0, hb1, hwl⟩ := e6.mp hsem
    refine ⟨Or.inl rfl, ⟨fun _ => Or.inr (Or.inr ⟨hb1, hwl, ?_⟩), fun _ => rfl⟩⟩
    rcases hor with hmu | hh
    · exact Or.inl (e4.mp hmu)
    · exact Or.inr (beq_iff_eq.mp hh)
  · refine ⟨Or.inr rfl, ⟨fun hcon => absurd hcon (by simp), fun hrhs => ?_⟩⟩
    exfalso
    rcases hrhs with hd | ⟨hsem0, hst⟩ | ⟨hb1, hwl, hor⟩
    · exact h1 (e1.mpr hd)
    · exact h2 (e5.mpr ⟨hst, hsem0⟩)
    · have hb0 : cidcfgr.testBit 0 = true := by
        by_contra hb
        exact h1 (e1.mpr (by simpa using hb))
      apply h3
      rw [Bool.and_eq_true, Bool.or_eq_true]
      refine ⟨e6.mpr ⟨hb0, hb1, hwl⟩, ?_⟩
      rcases hor with hmu | hh
      · exact Or.inl (e4.mpr hmu)
      · exact Or.inr (beq_iff_eq.mpr hh)

/-- Witness for C1 at a concrete semaphore-mode configuration
(CFEN, SEMEN, CID 1 whitelisted, semaphore free). -/
theorem C1_witness :
    stm32_rif_check_access 131075 0 7 1 = some TEE_Result.success :=
  ((C1_rif_check_access_decision_table 131075 0 7 1 (by decide)
    (by decide)).2).mpr (by decide)

/-- C6: evaluation of `stm32_rif_parse_cfg` at a cell encoding resource
index 32 with the security, privilege and lock flags set, starting from an
all-zero configuration table with 64 resources.  The packed CID word is
stored at index 32, but `BIT(resource_id)` is an out-of-width shift for
`resource_id = 32` (undefined behaviour in C, shifting out on the 32-bit
target), so no bit at all is recorded in word 1 of the `access_mask`,
`sec_conf`, `priv_conf` and `lock_conf` arrays — contradicting the
claimed (and commented) support for resources with index 32 or higher,
which requires `BIT(resource_id % 32)` as in the upstream driver. -/
theorem C6_parse_cfg_resource32_lost :
    (stm32_rif_parse_cfg 229408
        { access_mask := fun _ => 0, sec_conf := fun _ => 0,
          priv_conf := fun _ => 0, cid_confs := fun _ => 0,
          lock_conf := some (fun _ => 0) } 7 64).map
      (fun d => (d.access_mask 1, d.sec_conf 1, d.priv_conf 1,
                 d.lock_conf.map (fun lc => lc 1), d.cid_confs 32)) =
    some (0, 0, 0, some 0, 896) := by
  decide

/-- C7: for every trace of SEMCR read values (`r0` before anything, `r1`
inside the clear, `r2`/`r3` on the re-reads) and any asserted-valid
compartment count, `stm32_rif_release_semaphore` returns success without
any register write when the semaphore is already free; otherwise it writes
exactly the mutex-cleared value and returns success iff the re-read shows
the semaphore free or reports a holder CID other than `RIF_CID1`,
returning `TEE_ERROR_ACCESS_DENIED` exactly when the register reads back
still taken with holder CID `RIF_CID1`. -/
theorem C7_release_semaphore_spec (nb r0 r1 r2 r3 : Nat)
    (hnb : msb_nb_cid_supp nb ≤ MAX_CID_BITFIELD) :
    (r0.testBit 0 = false →
      stm32_rif_release_semaphore nb r0 r1 r2 r3 =
        some (TEE_Result.success, [])) ∧
    (r0.testBit 0 = true →
      (stm32_rif_release_semaphore nb r0 r1 r2 r3 =
          some (TEE_Result.success, [r1 &&& NOT32 _SEMCR_MUTEX]) ↔
        (r2.testBit 0 = false ∨
         (r3 &&& rif_scid_mask nb) >>> _CIDCFGR_SCID_SHIFT ≠ RIF_CID1)) ∧
      (stm32_rif_release_semaphore nb r0 r1 r2 r3 =
          some (TEE_Result.errorAccessDenied, [r1 &&& NOT32 _SEMCR_MUTEX]) ↔
        (r2.testBit 0 = true ∧
         (r3 &&& rif_scid_mask nb) >>> _CIDCFGR_SCID_SHIFT = RIF_CID1))) := by
  have e0 : (r0 &&& _SEMCR_MUTEX == 0) = true ↔ r0.testBit 0 = false := by
    rw [beq_iff_eq]
    exact and_bit_eq_zero r0 0 (by norm_num)
  have e2 : (r2 &&& _SEMCR_MUTEX != 0) = true ↔ r2.testBit 0 = true := by
    rw [bne_iff_ne]
    exact and_bit_ne_zero r2 0 (by norm_num)
  unfold stm32_rif_release_semaphore
  rw [if_neg (by omega)]
  split_ifs with hfree hden
  · exact ⟨fun _ => rfl, fun htaken => absurd (e0.mp hfree) (by simp [htaken])⟩
  · rw [Bool.and_eq_true] at hden
    refine ⟨fun hf => absurd (e0.mpr hf) hfree, fun _ => ⟨?_, ?_⟩⟩
    · constructor
      · intro hcon
        exact absurd hcon (by simp)
      · intro hrhs
        exfalso
        rcases hrhs with hfree2 | hne
        · exact absurd (e2.mp hden.1) (by simp [hfree2])
        · exact hne (beq_iff_eq.mp hden.2)
    · exact ⟨fun _ => ⟨e2.mp hden.1, beq_iff_eq.mp hden.2⟩, fun _ => rfl⟩
  · refine ⟨fun hf => absurd (e0.mpr hf) hfree, fun _ => ⟨?_, ?_⟩⟩
    · constructor
      · intro _
        by_cases h2 : r2.testBit 0
        · refine Or.inr fun hh => ?_
          exact hden (by rw [Bool.and_eq_true]
                         exact ⟨e2.mpr h2, beq_iff_eq.mpr hh⟩)
        · exact Or.inl (by simpa using h2)
      · intro _
        rfl
    · constructor
      · intro hcon
        exact absurd hcon (by simp)
      · rintro ⟨h2, hh⟩
        exact absurd (by rw [Bool.and_eq_true]
                         exact ⟨e2.mpr h2, beq_iff_eq.mpr hh⟩ :
                      (r2 &&& _SEMCR_MUTEX != 0 &&
                       ((r3 &&& rif_scid_mask nb) >>> _CIDCFGR_SCID_SHIFT ==
                        RIF_CID1)) = true) hden

/-- Witness for C7: release of an already-free semaphore. -/
theorem C7_witness :
    stm32_rif_release_semaphore 7 0 0 0 0 = some (TEE_Result.success, []) :=
  (C7_release_semaphore_spec 7 0 0 0 0 (by decide)).1 (by decide)

/-- C8: for every RISAF region with non-zero length (and in-range 64-bit
geometry), `risaf_check_region_boundaries` returns
`TEE_ERROR_BAD_PARAMETERS` exactly when the region start is below the
IP's memory base, or the region end exceeds the IP's memory end, or the
granularity is zero, or the start address or the length is not a multiple
of the granularity; otherwise it returns success.  The function performs
no register write in either case. -/
theorem C8_check_region_boundaries_spec
    (mem_base mem_size granularity addr len : Nat)
    (hlen : 0 < len) (hms : 0 < mem_size)
    (hmb : mem_base + mem_size ≤ 2 ^ 64) (hal : addr + len ≤ 2 ^ 64) :
    (risaf_check_region_boundaries mem_base mem_size granularity addr len =
        some TEE_Result.errorBadParameters ↔
      (addr < mem_base ∨ mem_base + mem_size < addr + len ∨
       granularity = 0 ∨ addr % granularity ≠ 0 ∨ len % granularity ≠ 0)) ∧
    (risaf_check_region_boundaries mem_base mem_size granularity addr len =
        some TEE_Result.success ↔
      ¬(addr < mem_base ∨ mem_base + mem_size < addr + len ∨
        granularity = 0 ∨ addr % granularity ≠ 0 ∨ len % granularity ≠ 0)) := by
  have hlen0 : ¬ len = 0 := by omega
  have hend : (mem_size + 2 ^ 64 - 1) % 2 ^ 64 = mem_size - 1 := by omega
  have hend1 : (mem_base + (mem_size - 1)) % 2 ^ 64 = mem_base + (mem_size - 1) :=
    Nat.mod_eq_of_lt (by omega)
  have hB : ((addr + 2 ^ 64 - 1) % 2 ^ 64 + len) % 2 ^ 64 = addr + len - 1 := by
    omega
  unfold risaf_check_region_boundaries
  rw [if_neg hlen0]
  simp only [hend, hend1, hB]
  split_ifs with h1 h2 h3
  · refine ⟨⟨fun _ => Or.inl h1, fun _ => rfl⟩,
            ⟨fun hcon => absurd hcon (by simp), fun hns => (hns (Or.inl h1)).elim⟩⟩
  · simp only [Bool.or_eq_true, decide_eq_true_eq] at h2
    have hc : mem_base + mem_size < addr + len := by omega
    refine ⟨⟨fun _ => Or.inr (Or.inl hc), fun _ => rfl⟩,
            ⟨fun hcon => absurd hcon (by simp),
             fun hns => (hns (Or.inr (Or.inl hc))).elim⟩⟩
  · simp only [Bool.or_eq_true, decide_eq_true_eq, bne_iff_ne] at h3
    have hc : granularity = 0 ∨ addr % granularity ≠ 0 ∨
        len % granularity ≠ 0 := by
      rcases h3 with (h | h) | h
      · exact Or.inl h
      · exact Or.inr (Or.inl h)
      · exact Or.inr (Or.inr h)
    refine ⟨⟨fun _ => Or.inr (Or.inr hc), fun _ => rfl⟩,
            ⟨fun hcon => absurd hcon (by simp),
             fun hns => (hns (Or.inr (Or.inr hc))).elim⟩⟩
  · simp only [Bool.or_eq_true, decide_eq_true_eq, bne_iff_ne, not_or] at h2 h3
    have hns : ¬(addr < mem_base ∨ mem_base + mem_size < addr + len ∨
        granularity = 0 ∨ addr % granularity ≠ 0 ∨ len % granularity ≠ 0) := by
      intro hrhs
      rcases hrhs with hx | hx | hx | hx | hx
      · exact h1 hx
      · omega
      · exact h3.1.1 hx
      · exact h3.1.2 hx
      · exact h3.2 hx
    refine ⟨⟨fun hcon => absurd hcon (by simp), fun hc => (hns hc).elim⟩,
            ⟨fun _ => hns, fun _ => rfl⟩⟩

/-- Witness for C8: an aligned in-range region is accepted. -/
theorem C8_witness :
    risaf_check_region_boundaries 4096 8192 16 4096 4096 =
      some TEE_Result.success :=
  (C8_check_region_boundaries_spec 4096 8192 16 4096 4096 (by decide)
    (by decide) (by norm_num) (by norm_num)).2.mpr (by decide)

/-- C5: for any RISAF region array and any two positions `i < j`, both with
non-zero configuration, whose `[base, base+length)` intervals intersect,
the overlap check run when the later region is registered fails with
`TEE_ERROR_GENERIC`; since the intersection predicate is symmetric, this
holds for either registration order of the two regions. -/
theorem C5_overlap_detected (regions : Nat → stm32_risaf_region) (i j : Nat)
    (hij : i < j) (hcfgi : (regions i).cfg ≠ 0) (_hcfgj : (regions j).cfg ≠ 0)
    (hint : core_is_buffer_intersect (regions j).addr (regions j).len
      (regions i).addr (regions i).len = true) :
    risaf_check_overlap regions j = TEE_Result.errorGeneric := by
  unfold risaf_check_overlap
  split
  · rfl
  next hnone =>
    exfalso
    have hni := List.find?_eq_none.mp hnone i (List.mem_range.mpr hij)
    simp only [Bool.and_eq_true, bne_iff_ne] at hni
    exact hni ⟨hcfgi, hint⟩

/-- Witness for C5: regions `[0x1000, 0x1100)` and `[0x1080, 0x1180)` of
the same instance collide when the second is checked. -/
theorem C5_witness :
    risaf_check_overlap
      (fun k => if k = 0 then { cfg := 1, addr := 4096, len := 256 }
                else if k = 1 then { cfg := 2, addr := 4224, len := 256 }
                else { cfg := 0, addr := 0, len := 0 }) 1 =
      TEE_Result.errorGeneric :=
  C5_overlap_detected _ 0 1 (by decide) (by decide) (by decide) (by decide)

/-- C10: for every valid RISAF region id whose region is enabled (or the
caller is TDCID) and marked secure, a CIDCFGR register value of exactly
zero makes `stm32_risaf_acquire_access` succeed for every combination of
requested read/write flags: the per-CID permission check is skipped
entirely when the CIDCFGR word is zero. -/
theorem C10_risaf_acquire_cidcfgr_zero
    (nregions : Nat) (is_tdcid : Bool) (cfgrs cidcfgrs : Nat → Nat)
    (arg : Nat) (rd wr : Bool)
    (hid0 : _RISAF_GET_REGION_ID arg ≠ 0)
    (hidn : _RISAF_GET_REGION_ID arg < nregions)
    (hsec : cfgrs (_RISAF_GET_REGION_ID arg) &&& _RISAF_REG_CFGR_SEC ≠ 0)
    (hen : cfgrs (_RISAF_GET_REGION_ID arg) &&& _RISAF_REG_CFGR_BREN ≠ 0 ∨
      is_tdcid = true)
    (hcid : cidcfgrs (_RISAF_GET_REGION_ID arg) = 0) :
    stm32_risaf_acquire_access nregions is_tdcid cfgrs cidcfgrs arg rd wr =
      TEE_Result.success := by
  unfold stm32_risaf_acquire_access
  rw [if_neg (by
    simp only [Bool.or_eq_true, decide_eq_true_eq]
    push_neg
    exact ⟨hid0, by omega⟩)]
  rcases hen with hb | ht
  · simp [hcid, hb, hsec]
  · simp [hcid, ht, hsec]

/-- Witness for C10: enabled secure region 1 with an all-zero CIDCFGR is
granted read-and-write access. -/
theorem C10_witness :
    stm32_risaf_acquire_access 2 false (fun _ => 257) (fun _ => 0) 1
      true true = TEE_Result.success :=
  C10_risaf_acquire_cidcfgr_zero 2 false (fun _ => 257) (fun _ => 0) 1
    true true (by decide) (by decide) (by decide) (Or.inl (by decide))
    (by decide)

/-- C9: for every valid ETZPC peripheral id and every requested DECPROT
attribute, `stm32_etzpc_check_access` succeeds iff the current attribute
equals the requested one, or the current attribute is not MCU-isolated and
the request is a secure access (S-RW or NS-R/S-W), or the current
attribute is neither MCU-isolated nor S-RW and the request is a non-secure
access (NS-RW or NS-R/S-W); otherwise it returns
`TEE_ERROR_ACCESS_DENIED`.  In particular an MCU-isolated peripheral
denies both NS-RW and S-RW requests. -/
theorem C9_etzpc_check_access_spec (dev : etzpc_device) (arg : Nat)
    (hid : arg &&& ETZPC_ID_MASK < dev.num_per_sec)
    (hmode : (arg &&& ETZPC_MODE_MASK) >>> ETZPC_MODE_SHIFT < 4) :
    (stm32_etzpc_check_access dev arg = some TEE_Result.success ∨
     stm32_etzpc_check_access dev arg = some TEE_Result.errorAccessDenied) ∧
    (stm32_etzpc_check_access dev arg = some TEE_Result.success ↔
      (etzpc_do_get_decprot dev (arg &&& ETZPC_ID_MASK) =
         (arg &&& ETZPC_MODE_MASK) >>> ETZPC_MODE_SHIFT ∨
       (etzpc_do_get_decprot dev (arg &&& ETZPC_ID_MASK) ≠
          ETZPC_DECPROT_MCU_ISOLATION ∧
        ((arg &&& ETZPC_MODE_MASK) >>> ETZPC_MODE_SHIFT =
           ETZPC_DECPROT_S_RW ∨
         (arg &&& ETZPC_MODE_MASK) >>> ETZPC_MODE_SHIFT =
           ETZPC_DECPROT_NS_R_S_W)) ∨
       (etzpc_do_get_decprot dev (arg &&& ETZPC_ID_MASK) ≠
          ETZPC_DECPROT_MCU_ISOLATION ∧
        etzpc_do_get_decprot dev (arg &&& ETZPC_ID_MASK) ≠
          ETZPC_DECPROT_S_RW ∧
        ((arg &&& ETZPC_MODE_MASK) >>> ETZPC_MODE_SHIFT =
           ETZPC_DECPROT_NS_RW ∨
         (arg &&& ETZPC_MODE_MASK) >>> ETZPC_MODE_SHIFT =
           ETZPC_DECPROT_NS_R_S_W)))) := by
  have ha3 : etzpc_do_get_decprot dev (arg &&& ETZPC_ID_MASK) ≤ 3 := by
    unfold etzpc_do_get_decprot
    calc _ ≤ ETZPC_DECPROT0_MASK := Nat.and_le_right
    _ ≤ 3 := by decide
  unfold stm32_etzpc_check_access
  set a := etzpc_do_get_decprot dev (arg &&& ETZPC_ID_MASK) with hadef
  set r := (arg &&& ETZPC_MODE_MASK) >>> ETZPC_MODE_SHIFT with hrdef
  clear hadef hrdef
  have hr3 : r ≤ 3 := by omega
  interval_cases r <;> interval_cases a <;>
    simp [etzpc_binding2decprot, hid, DECPROT_S_RW, DECPROT_NS_R_S_W,
      DECPROT_MCU_ISOLATION, DECPROT_NS_RW, ETZPC_DECPROT_S_RW,
      ETZPC_DECPROT_NS_R_S_W, ETZPC_DECPROT_MCU_ISOLATION,
      ETZPC_DECPROT_NS_RW]

/-- Witness for C9 (Scenario C): peripheral 5 configured MCU-isolated
denies a Secure-RW request. -/
theorem C9_witness :
    stm32_etzpc_check_access
      { num_tzma := 2, num_per_sec := 16,
        decprot := fun _ => 2048, decprot_lock := fun _ => 0,
        tzma := fun _ => 0 } 5 = some TEE_Result.errorAccessDenied := by
  have h := C9_etzpc_check_access_spec
    { num_tzma := 2, num_per_sec := 16, decprot := fun _ => 2048,
      decprot_lock := fun _ => 0, tzma := fun _ => 0 } 5
    (by decide) (by decide)
  rcases h.1 with hs | hd
  · exact absurd (h.2.mp hs) (by decide)
  · exact hd

theorem and_bit_beq_zero (x n : Nat) (h : n < 32) :
    (x &&& BIT n == 0) = !x.testBit n := by
  cases ht : x.testBit n
  · simp [(and_bit_eq_zero x n h).mpr ht]
  · have hne := (and_bit_ne_zero x n h).mpr ht
    simp [beq_eq_false_iff_ne, hne]

theorem and_bit_bne_zero (x n : Nat) (h : n < 32) :
    (x &&& BIT n != 0) = x.testBit n := by
  cases ht : x.testBit n
  · simp [bne, and_bit_beq_zero x n h, ht]
  · simp [bne, and_bit_beq_zero x n h, ht]

theorem sem_mode_incorrect_of_cfen_semen (c : Nat)
    (h0 : c.testBit 0 = true) (h1 : c.testBit 1 = true) :
    SEM_MODE_INCORRECT c = !c.testBit 17 := by
  unfold SEM_MODE_INCORRECT
  have e0 : (c &&& _CIDCFGR_CFEN == 0) = !c.testBit 0 :=
    and_bit_beq_zero c 0 (by norm_num)
  have e1 : (c &&& _CIDCFGR_SEMEN == 0) = !c.testBit 1 :=
    and_bit_beq_zero c 1 (by norm_num)
  have e1n : (c &&& _CIDCFGR_SEMEN != 0) = c.testBit 1 :=
    and_bit_bne_zero c 1 (by norm_num)
  have e17 : (c &&& _CIDCFGR_SEMWL RIF_CID1 == 0) = !c.testBit 17 := by
    have := and_bit_beq_zero c 17 (by norm_num)
    simpa [_CIDCFGR_SEMWL, _CIDCFGR_SEMWL_SHIFT, RIF_CID1] using this
  rw [e0, e1, e1n, e17, h0, h1]
  simp

theorem semcr_taken_value (c : Nat) (hc : c ≤ 7) :
    semcrValue (SemHW.taken c) = 1 + 16 * c := by
  show _SEMCR_MUTEX + (c <<< _SEMCR_SEMCID_SHIFT) % 2 ^ 32 = 1 + 16 * c
  have h1 : _SEMCR_MUTEX = 1 := by decide
  have h2 : (c <<< _SEMCR_SEMCID_SHIFT) % 2 ^ 32 = 16 * c := by
    have hs : c <<< _SEMCR_SEMCID_SHIFT = c * 2 ^ 4 := Nat.shiftLeft_eq c 4
    rw [hs, Nat.mod_eq_of_lt (by omega)]
    omega
  omega

theorem semcr_taken_mutex (c : Nat) (hc : c ≤ 7) :
    semcrValue (SemHW.taken c) &&& _SEMCR_MUTEX ≠ 0 := by
  rw [semcr_taken_value c hc]
  have : (1 + 16 * c) &&& _SEMCR_MUTEX = (1 + 16 * c) % 2 :=
    Nat.and_one_is_mod (1 + 16 * c)
  rw [this]
  omega

theorem semcr_taken_holder (c : Nat) (hc : c ≤ 7) :
    (semcrValue (SemHW.taken c) &&& rif_scid_mask MAX_CID_SUPPORTED) >>>
      _CIDCFGR_SCID_SHIFT = c := by
  rw [semcr_taken_value c hc]
  have hmask : rif_scid_mask MAX_CID_SUPPORTED = GENMASK_32 (4 + 2) 4 := by
    decide
  show ((1 + 16 * c) &&& rif_scid_mask MAX_CID_SUPPORTED) >>> 4 = c
  rw [hmask, genmask_field (1 + 16 * c) 2 (by omega),
    Nat.shiftRight_eq_div_pow]
  omega

theorem semcr_free_mutex : semcrValue SemHW.free &&& _SEMCR_MUTEX = 0 := by
  decide

theorem sec_phase_fields (drv : rifsc_driver_data)
    (x : RifscRegs × List RifscWrite) (w s : Nat) (b : Bool) :
    (risup_cfg_sec_phase drv x w s b).1.privcfgr = x.1.privcfgr ∧
    (risup_cfg_sec_phase drv x w s b).1.cidcfgr = x.1.cidcfgr ∧
    (risup_cfg_sec_phase drv x w s b).1.rcfglockr = x.1.rcfglockr ∧
    (risup_cfg_sec_phase drv x w s b).1.sem = x.1.sem := by
  unfold risup_cfg_sec_phase
  split <;> exact ⟨rfl, rfl, rfl, rfl⟩

theorem sec_phase_log (drv : rifsc_driver_data)
    (x : RifscRegs × List RifscWrite) (w s : Nat) (b : Bool) :
    ∃ l, (risup_cfg_sec_phase drv x w s b).2 = x.2 ++ l ∧
      ∀ e ∈ l, is_cid_or_lock_write e = false := by
  unfold risup_cfg_sec_phase
  split
  · exact ⟨[RifscWrite.secW w _], rfl, by simp [is_cid_or_lock_write]⟩
  · exact ⟨[], by simp, by simp⟩

theorem priv_phase_fields (drv : rifsc_driver_data)
    (x : RifscRegs × List RifscWrite) (w s : Nat) (b : Bool) :
    (risup_cfg_priv_phase drv x w s b).1.seccfgr = x.1.seccfgr ∧
    (risup_cfg_priv_phase drv x w s b).1.cidcfgr = x.1.cidcfgr ∧
    (risup_cfg_priv_phase drv x w s b).1.rcfglockr = x.1.rcfglockr ∧
    (risup_cfg_priv_phase drv x w s b).1.sem = x.1.sem := by
  unfold risup_cfg_priv_phase
  split <;> exact ⟨rfl, rfl, rfl, rfl⟩

theorem priv_phase_log (drv : rifsc_driver_data)
    (x : RifscRegs × List RifscWrite) (w s : Nat) (b : Bool) :
    ∃ l, (risup_cfg_priv_phase drv x w s b).2 = x.2 ++ l ∧
      ∀ e ∈ l, is_cid_or_lock_write e = false := by
  unfold risup_cfg_priv_phase
  split
  · exact ⟨[RifscWrite.privW w _], rfl, by simp [is_cid_or_lock_write]⟩
  · exact ⟨[], by simp, by simp⟩

theorem tdcid_phase_false (drv : rifsc_driver_data)
    (x : RifscRegs × List RifscWrite) (risup : risup_cfg) (w s : Nat) :
    risup_cfg_tdcid_phase drv false x risup w s = x := rfl

theorem tdcid_phase_fields (drv : rifsc_driver_data) (t : Bool)
    (x : RifscRegs × List RifscWrite) (risup : risup_cfg) (w s : Nat) :
    (risup_cfg_tdcid_phase drv t x risup w s).1.seccfgr = x.1.seccfgr ∧
    (risup_cfg_tdcid_phase drv t x risup w s).1.privcfgr = x.1.privcfgr ∧
    (risup_cfg_tdcid_phase drv t x risup w s).1.sem = x.1.sem := by
  simp only [risup_cfg_tdcid_phase]
  split_ifs <;> exact ⟨rfl, rfl, rfl⟩

theorem tdcid_phase_log (drv : rifsc_driver_data) (t : Bool)
    (x : RifscRegs × List RifscWrite) (risup : risup_cfg) (w s : Nat) :
    ∃ l, (risup_cfg_tdcid_phase drv t x risup w s).2 = x.2 ++ l ∧
      ∀ e ∈ l, is_cid_or_lock_write e = true := by
  cases t with
  | false => exact ⟨[], by simp [risup_cfg_tdcid_phase], by simp⟩
  | true =>
    cases hr : drv.rif_en <;> cases hl : risup.lock
    · exact ⟨[], by simp [risup_cfg_tdcid_phase, hr, hl], by simp⟩
    · exact ⟨[RifscWrite.lockW w (x.1.rcfglockr w ||| BIT s)],
        by simp [risup_cfg_tdcid_phase, hr, hl],
        by simp [is_cid_or_lock_write]⟩
    · exact ⟨[RifscWrite.cidW risup.id risup.cid_attr],
        by simp [risup_cfg_tdcid_phase, hr, hl],
        by simp [is_cid_or_lock_write]⟩
    · exact ⟨[RifscWrite.cidW risup.id risup.cid_attr,
              RifscWrite.lockW w (x.1.rcfglockr w ||| BIT s)],
        by simp [risup_cfg_tdcid_phase, hr, hl],
        by simp [is_cid_or_lock_write]⟩

theorem release_hw_free_eq :
    stm32_rif_release_semaphore_hw MAX_CID_SUPPORTED SemHW.free =
      some (TEE_Result.success, SemHW.free, false) := by
  decide

theorem release_hw_taken_eq (c : Nat) (hc : c ≤ 7) :
    stm32_rif_release_semaphore_hw MAX_CID_SUPPORTED (SemHW.taken c) =
      some (TEE_Result.success, SemHW.free, true) := by
  interval_cases c <;> decide

theorem acquire_hw_free_eq (winner : Nat) (hw : winner ≤ 7) :
    stm32_rif_acquire_semaphore_hw MAX_CID_SUPPORTED winner SemHW.free =
      some ((if winner = RIF_CID1 then TEE_Result.success
             else TEE_Result.errorAccessDenied), SemHW.taken winner) := by
  interval_cases winner <;> decide

theorem acquire_hw_taken_eq (winner c : Nat) (hc : c ≤ 7) :
    stm32_rif_acquire_semaphore_hw MAX_CID_SUPPORTED winner (SemHW.taken c) =
      some ((if c = RIF_CID1 then TEE_Result.success
             else TEE_Result.errorAccessDenied), SemHW.taken c) := by
  interval_cases c <;>
    simp [stm32_rif_acquire_semaphore_hw, semcrValue, rif_scid_mask,
      msb_nb_cid_supp, msbAux, GENMASK_32, MAX_CID_SUPPORTED,
      MAX_CID_BITFIELD, _SEMCR_MUTEX, _SEMCR_SEMCID_SHIFT,
      _CIDCFGR_SCID_SHIFT, BIT, RIF_CID1] <;> decide

/-- C2: for every RISUP resource whose configuration word has CID
filtering and semaphore mode enabled, a run of `stm32_risup_cfg` (with an
in-range id, a bounded arbitration winner and a well-formed initial
semaphore state) returns success or `TEE_ERROR_ACCESS_DENIED`; on success
the hardware semaphore is settled deterministically — taken with holder
CID `RIF_CID1` when compartment 1 is in the semaphore whitelist and the
resource reads back secured, and free when compartment 1 is not
white-listed or the resource is not secured; and when the whitelisted,
secured acquire path loses the hardware arbitration (or finds the
semaphore held by another compartment) the call returns
`TEE_ERROR_ACCESS_DENIED`. -/
theorem C2_risup_cfg_semaphore_settled
    (pd : rifsc_platdata) (winner : Nat) (st : RifscRegs) (risup : risup_cfg)
    (res : TEE_Result) (st1 : RifscRegs) (log : List RifscWrite)
    (hcfen : risup.cid_attr.testBit 0 = true)
    (hsemen : risup.cid_attr.testBit 1 = true)
    (hwin : winner ≤ MAX_CID_SUPPORTED)
    (hwf : ∀ c, st.sem risup.id = SemHW.taken c → c ≤ MAX_CID_SUPPORTED)
    (hid : risup.id < pd.drv.nb_risup)
    (hrun : stm32_risup_cfg pd winner st risup = some (res, st1, log)) :
    (res = TEE_Result.success ∨ res = TEE_Result.errorAccessDenied) ∧
    (res = TEE_Result.success →
      (risup.cid_attr.testBit (_CIDCFGR_SEMWL_SHIFT + RIF_CID1) = true ∧
       (st1.seccfgr (risup.id / _PERIPH_IDS_PER_REG)).testBit
         (risup.id % _PERIPH_IDS_PER_REG) = true →
        st1.sem risup.id = SemHW.taken RIF_CID1) ∧
      (risup.cid_attr.testBit (_CIDCFGR_SEMWL_SHIFT + RIF_CID1) = false ∨
       (st1.seccfgr (risup.id / _PERIPH_IDS_PER_REG)).testBit
         (risup.id % _PERIPH_IDS_PER_REG) = false →
        st1.sem risup.id = SemHW.free)) ∧
    (risup.cid_attr.testBit (_CIDCFGR_SEMWL_SHIFT + RIF_CID1) = true →
     (st1.seccfgr (risup.id / _PERIPH_IDS_PER_REG)).testBit
       (risup.id % _PERIPH_IDS_PER_REG) = true →
     ((st.sem risup.id = SemHW.free ∧ winner ≠ RIF_CID1) ∨
      (∃ c, st.sem risup.id = SemHW.taken c ∧ c ≠ RIF_CID1)) →
     res = TEE_Result.errorAccessDenied) := by
  have hwl17 : risup.cid_attr.testBit (_CIDCFGR_SEMWL_SHIFT + RIF_CID1) =
      risup.cid_attr.testBit 17 := rfl
  have hsh : risup.id % _PERIPH_IDS_PER_REG < 32 := by
    show risup.id % 32 < 32
    omega
  have hSMI : SEM_MODE_INCORRECT risup.cid_attr = !risup.cid_attr.testBit 17 :=
    sem_mode_incorrect_of_cfen_semen _ hcfen hsemen
  rw [hwl17]
  unfold stm32_risup_cfg at hrun
  rw [if_neg (by omega)] at hrun
  set y := risup_cfg_priv_phase pd.drv
      (risup_cfg_sec_phase pd.drv (st, []) (risup.id / _PERIPH_IDS_PER_REG)
        (risup.id % _PERIPH_IDS_PER_REG) risup.sec)
      (risup.id / _PERIPH_IDS_PER_REG) (risup.id % _PERIPH_IDS_PER_REG)
      risup.priv with hy
  set z := risup_cfg_tdcid_phase pd.drv pd.is_tdcid y risup
      (risup.id / _PERIPH_IDS_PER_REG) (risup.id % _PERIPH_IDS_PER_REG)
      with hz
  have hzsem : z.1.sem = st.sem := by
    rw [hz, (tdcid_phase_fields pd.drv pd.is_tdcid y risup _ _).2.2, hy,
      (priv_phase_fields pd.drv _ _ _ risup.priv).2.2.2,
      (sec_phase_fields pd.drv (st, []) _ _ risup.sec).2.2.2]
  have hsec_eq : (z.1.seccfgr (risup.id / _PERIPH_IDS_PER_REG) &&&
      BIT (risup.id % _PERIPH_IDS_PER_REG) == 0) =
      !(z.1.seccfgr (risup.id / _PERIPH_IDS_PER_REG)).testBit
        (risup.id % _PERIPH_IDS_PER_REG) :=
    and_bit_beq_zero _ _ hsh
  unfold risup_cfg_sem_phase at hrun
  rw [hSMI, hsec_eq, hzsem] at hrun
  by_cases hcond : (!risup.cid_attr.testBit 17 ||
      !(z.1.seccfgr (risup.id / _PERIPH_IDS_PER_REG)).testBit
        (risup.id % _PERIPH_IDS_PER_REG)) = true
  · rw [if_pos hcond] at hrun
    simp only [Bool.or_eq_true, Bool.not_eq_true'] at hcond
    cases hsem : st.sem risup.id with
    | free =>
      rw [hsem, release_hw_free_eq] at hrun
      simp only [Option.some.injEq, Prod.mk.injEq] at hrun
      obtain ⟨hres, hst1, hlog⟩ := by
        simpa using hrun
      subst hst1
      refine ⟨Or.inl hres.symm, fun _ => ⟨fun hcontra => ?_, fun _ => ?_⟩,
        fun hwl hsec _ => ?_⟩
      · rcases hcond with hc | hc
        · rw [hc] at hcontra
          simp at hcontra
        · exact absurd hcontra.2 (by simp [hc])
      · simp [updf]
      · rcases hcond with hc | hc
        · rw [hc] at hwl
          simp at hwl
        · exact absurd hsec (by simp [hc])
    | taken c =>
      have hc7 : c ≤ 7 := hwf c hsem
      rw [hsem, release_hw_taken_eq c hc7] at hrun
      simp only [Option.some.injEq, Prod.mk.injEq] at hrun
      obtain ⟨hres, hst1, hlog⟩ := by
        simpa using hrun
      subst hst1
      refine ⟨Or.inl hres.symm, fun _ => ⟨fun hcontra => ?_, fun _ => ?_⟩,
        fun hwl hsec _ => ?_⟩
      · rcases hcond with hc | hc
        · rw [hc] at hcontra
          simp at hcontra
        · exact absurd hcontra.2 (by simp [hc])
      · simp [updf]
      · rcases hcond with hc | hc
        · rw [hc] at hwl
          simp at hwl
        · exact absurd hsec (by simp [hc])
  · rw [if_neg hcond] at hrun
    simp only [Bool.or_eq_true, Bool.not_eq_true', not_or] at hcond
    push_neg at hcond
    obtain ⟨hwl, hsec⟩ := hcond
    simp only [Bool.not_eq_false] at hwl hsec
    cases hsem : st.sem risup.id with
    | free =>
      rw [hsem, acquire_hw_free_eq winner hwin] at hrun
      by_cases hw1 : winner = RIF_CID1
      · rw [if_pos hw1] at hrun
        simp only [Option.some.injEq, Prod.mk.injEq] at hrun
        obtain ⟨hres, hst1, hlog⟩ := by
          simpa using hrun
        subst hst1
        refine ⟨Or.inl hres.symm, fun _ => ⟨fun _ => ?_, fun hcontra => ?_⟩,
          fun _ _ hfail => ?_⟩
        · simp [updf, hw1]
        · rcases hcontra with hc | hc
          · rw [hwl] at hc
            simp at hc
          · exact absurd hsec (by simp [hc])
        · rcases hfail with ⟨_, hne⟩ | ⟨c, hc, _⟩
          · exact absurd hw1 hne
          · cases hc
      · rw [if_neg hw1] at hrun
        simp only [Option.some.injEq, Prod.mk.injEq] at hrun
        obtain ⟨hres, hst1, hlog⟩ := by
          simpa using hrun
        refine ⟨Or.inr hres.symm, fun hdone => absurd hdone (by
          rw [← hres]
          simp), fun _ _ _ => hres.symm⟩
    | taken c =>
      have hc7 : c ≤ 7 := hwf c hsem
      rw [hsem, acquire_hw_taken_eq winner c hc7] at hrun
      by_cases hc1 : c = RIF_CID1
      · rw [if_pos hc1] at hrun
        simp only [Option.some.injEq, Prod.mk.injEq] at hrun
        obtain ⟨hres, hst1, hlog⟩ := by
          simpa using hrun
        subst hst1
        refine ⟨Or.inl hres.symm, fun _ => ⟨fun _ => ?_, fun hcontra => ?_⟩,
          fun _ _ hfail => ?_⟩
        · simp [updf, hc1]
        · rcases hcontra with hx | hx
          · rw [hwl] at hx
            simp at hx
          · exact absurd hsec (by simp [hx])
        · rcases hfail with ⟨hfree, _⟩ | ⟨d, hd, hdne⟩
          · cases hfree
          · cases hd
            exact absurd hc1 hdne
      · rw [if_neg hc1] at hrun
        simp only [Option.some.injEq, Prod.mk.injEq] at hrun
        obtain ⟨hres, hst1, hlog⟩ := by
          simpa using hrun
        refine ⟨Or.inr hres.symm, fun hdone => absurd hdone (by
          rw [← hres]
          simp), fun _ _ _ => hres.symm⟩

theorem C2_witness :
    stm32_risup_cfg
      { drv := { nb_rimu := 0, nb_risup := 4, rif_en := true,
                 sec_en := true, priv_en := true },
        is_tdcid := true, errata_ahbrisab := false, risups := [] } 1
      { seccfgr := fun _ => 0, privcfgr := fun _ => 0,
        rcfglockr := fun _ => 0, cidcfgr := fun _ => 0,
        rimc_attr := fun _ => 0, sem := fun _ => SemHW.free }
      { cid_attr := 131075, id := 1, sec := true, priv := false,
        lock := false, pm_sem := false } =
      some (TEE_Result.success,
        { seccfgr := updf (fun _ => 0) 0 2,
          privcfgr := updf (fun _ => 0) 0 0,
          rcfglockr := fun _ => 0,
          cidcfgr := updf (fun _ => 0) 1 131075,
          rimc_attr := fun _ => 0,
          sem := updf (fun _ => SemHW.free) 1 (SemHW.taken 1) },
        [RifscWrite.secW 0 2, RifscWrite.privW 0 0,
         RifscWrite.cidW 1 131075, RifscWrite.semSetW 1]) ∧
    updf (fun _ => SemHW.free) 1 (SemHW.taken 1) 1 =
      SemHW.taken RIF_CID1 := by
  have hrun : stm32_risup_cfg
      { drv := { nb_rimu := 0, nb_risup := 4, rif_en := true,
                 sec_en := true, priv_en := true },
        is_tdcid := true, errata_ahbrisab := false, risups := [] } 1
      { seccfgr := fun _ => 0, privcfgr := fun _ => 0,
        rcfglockr := fun _ => 0, cidcfgr := fun _ => 0,
        rimc_attr := fun _ => 0, sem := fun _ => SemHW.free }
      { cid_attr := 131075, id := 1, sec := true, priv := false,
        lock := false, pm_sem := false } =
      some (TEE_Result.success,
        { seccfgr := updf (fun _ => 0) 0 2,
          privcfgr := updf (fun _ => 0) 0 0,
          rcfglockr := fun _ => 0,
          cidcfgr := updf (fun _ => 0) 1 131075,
          rimc_attr := fun _ => 0,
          sem := updf (fun _ => SemHW.free) 1 (SemHW.taken 1) },
        [RifscWrite.secW 0 2, RifscWrite.privW 0 0,
         RifscWrite.cidW 1 131075, RifscWrite.semSetW 1]) := rfl
  exact ⟨hrun,
    ((C2_risup_cfg_semaphore_settled _ 1 _ _ _ _ _ (by decide) (by decide)
      (by decide) (fun c hc => by simp at hc) (by decide) hrun).2.1
        rfl).1 ⟨by decide, by decide⟩⟩

theorem ite_some_triple {c : Prop} [inst : Decidable c] {α β γ : Type _}
    (a₁ a₂ : α) (b : β) (l : γ) :
    (if c then some (a₁, b, l) else some (a₂, b, l)) =
      some (if c then a₁ else a₂, b, l) := by
  split <;> rfl

/-- C3: a run of `stm32_risup_cfg` with `is_tdcid = false` never writes
the CIDCFGR or RCFGLOCKR registers — those registers and the CID/lock
entries of the write log are untouched — while the security and privilege
register writes and the semaphore settling step are performed exactly as
in the run with `is_tdcid = true` on the same initial state: same result,
same final SECCFGR, PRIVCFGR and semaphore state, and the non-TDCID write
log is exactly the TDCID write log with the CID and lock writes removed. -/
theorem C3_risup_cfg_tdcid_frame
    (drv : rifsc_driver_data) (err : Bool) (rs : List risup_cfg)
    (winner : Nat) (st : RifscRegs) (risup : risup_cfg)
    (resf rest : TEE_Result) (stf stt : RifscRegs)
    (logf logt : List RifscWrite)
    (hf : stm32_risup_cfg ⟨drv, false, err, rs⟩ winner st risup =
      some (resf, stf, logf))
    (ht : stm32_risup_cfg ⟨drv, true, err, rs⟩ winner st risup =
      some (rest, stt, logt)) :
    stf.cidcfgr = st.cidcfgr ∧ stf.rcfglockr = st.rcfglockr ∧
    (∀ e ∈ logf, is_cid_or_lock_write e = false) ∧
    resf = rest ∧ stf.seccfgr = stt.seccfgr ∧ stf.privcfgr = stt.privcfgr ∧
    stf.sem = stt.sem ∧
    logf = logt.filter (fun e => !is_cid_or_lock_write e) := by
  replace hf : (if risup.id ≥ drv.nb_risup then
      some (TEE_Result.errorBadParameters, st, ([] : List RifscWrite))
    else risup_cfg_sem_phase winner risup (risup.id / _PERIPH_IDS_PER_REG)
      (risup.id % _PERIPH_IDS_PER_REG)
      (risup_cfg_tdcid_phase drv false
        (risup_cfg_priv_phase drv
          (risup_cfg_sec_phase drv (st, []) (risup.id / _PERIPH_IDS_PER_REG)
            (risup.id % _PERIPH_IDS_PER_REG) risup.sec)
          (risup.id / _PERIPH_IDS_PER_REG) (risup.id % _PERIPH_IDS_PER_REG)
          risup.priv)
        risup (risup.id / _PERIPH_IDS_PER_REG)
        (risup.id % _PERIPH_IDS_PER_REG))) = some (resf, stf, logf) := hf
  replace ht : (if risup.id ≥ drv.nb_risup then
      some (TEE_Result.errorBadParameters, st, ([] : List RifscWrite))
    else risup_cfg_sem_phase winner risup (risup.id / _PERIPH_IDS_PER_REG)
      (risup.id % _PERIPH_IDS_PER_REG)
      (risup_cfg_tdcid_phase drv true
        (risup_cfg_priv_phase drv
          (risup_cfg_sec_phase drv (st, []) (risup.id / _PERIPH_IDS_PER_REG)
            (risup.id % _PERIPH_IDS_PER_REG) risup.sec)
          (risup.id / _PERIPH_IDS_PER_REG) (risup.id % _PERIPH_IDS_PER_REG)
          risup.priv)
        risup (risup.id / _PERIPH_IDS_PER_REG)
        (risup.id % _PERIPH_IDS_PER_REG))) = some (rest, stt, logt) := ht
  by_cases hidn : risup.id ≥ drv.nb_risup
  · rw [if_pos hidn] at hf ht
    simp only [Option.some.injEq, Prod.mk.injEq] at hf ht
    obtain ⟨h1, h2, h3⟩ := hf
    obtain ⟨h4, h5, h6⟩ := ht
    subst h1 h2 h3 h4 h5 h6
    exact ⟨rfl, rfl, by simp, rfl, rfl, rfl, rfl, by simp⟩
  · rw [if_neg hidn] at hf ht
    rw [tdcid_phase_false] at hf
    set w := risup.id / _PERIPH_IDS_PER_REG with hwdef
    set sh := risup.id % _PERIPH_IDS_PER_REG with hshdef
    set y := risup_cfg_priv_phase drv
      (risup_cfg_sec_phase drv (st, []) w sh risup.sec) w sh risup.priv
      with hy
    set z := risup_cfg_tdcid_phase drv true y risup w sh with hz
    have hzsec : z.1.seccfgr = y.1.seccfgr := by
      rw [hz]
      exact (tdcid_phase_fields drv true y risup w sh).1
    have hzpriv : z.1.privcfgr = y.1.privcfgr := by
      rw [hz]
      exact (tdcid_phase_fields drv true y risup w sh).2.1
    have hzsem : z.1.sem = y.1.sem := by
      rw [hz]
      exact (tdcid_phase_fields drv true y risup w sh).2.2
    obtain ⟨lt, hlt, hltall⟩ : ∃ l, z.2 = y.2 ++ l ∧
        ∀ e ∈ l, is_cid_or_lock_write e = true := by
      rw [hz]
      exact tdcid_phase_log drv true y risup w sh
    obtain ⟨l1, hl1, hl1all⟩ := sec_phase_log drv (st, []) w sh risup.sec
    obtain ⟨l2, hl2, hl2all⟩ := priv_phase_log drv
      (risup_cfg_sec_phase drv (st, []) w sh risup.sec) w sh risup.priv
    have hy2 : y.2 = l1 ++ l2 := by
      rw [hy, hl2, hl1]
      simp
    have hyall : ∀ e ∈ y.2, is_cid_or_lock_write e = false := by
      rw [hy2]
      intro e he
      rcases List.mem_append.mp he with h | h
      · exact hl1all e h
      · exact hl2all e h
    have hycid : y.1.cidcfgr = st.cidcfgr := by
      rw [hy, (priv_phase_fields drv _ w sh risup.priv).2.1,
        (sec_phase_fields drv (st, []) w sh risup.sec).2.1]
    have hylock : y.1.rcfglockr = st.rcfglockr := by
      rw [hy, (priv_phase_fields drv _ w sh risup.priv).2.2.1,
        (sec_phase_fields drv (st, []) w sh risup.sec).2.2.1]
    unfold risup_cfg_sem_phase at hf ht
    rw [hzsec, hzsem] at ht
    by_cases hcond : (SEM_MODE_INCORRECT risup.cid_attr ||
        y.1.seccfgr w &&& BIT sh == 0) = true
    · rw [if_pos hcond] at hf ht
      cases hrel : stm32_rif_release_semaphore_hw MAX_CID_SUPPORTED
          (y.1.sem risup.id) with
      | none =>
        rw [hrel] at hf
        simp at hf
      | some trip =>
        obtain ⟨r, s1, wrote⟩ := trip
        rw [hrel] at hf ht
        replace hf : (if r ≠ TEE_Result.success then
            some (TEE_Result.errorAccessDenied,
              { y.1 with sem := updf y.1.sem risup.id s1 },
              y.2 ++ (if wrote then [RifscWrite.semClrW risup.id] else []))
          else some (TEE_Result.success,
              { y.1 with sem := updf y.1.sem risup.id s1 },
              y.2 ++ (if wrote then [RifscWrite.semClrW risup.id]
                      else []))) = some (resf, stf, logf) := hf
        replace ht : (if r ≠ TEE_Result.success then
            some (TEE_Result.errorAccessDenied,
              { seccfgr := z.1.seccfgr, privcfgr := z.1.privcfgr,
                rcfglockr := z.1.rcfglockr, cidcfgr := z.1.cidcfgr,
                rimc_attr := z.1.rimc_attr,
                sem := updf y.1.sem risup.id s1 },
              z.2 ++ (if wrote then [RifscWrite.semClrW risup.id] else []))
          else some (TEE_Result.success,
              { seccfgr := z.1.seccfgr, privcfgr := z.1.privcfgr,
                rcfglockr := z.1.rcfglockr, cidcfgr := z.1.cidcfgr,
                rimc_attr := z.1.rimc_attr,
                sem := updf y.1.sem risup.id s1 },
              z.2 ++ (if wrote then [RifscWrite.semClrW risup.id]
                      else []))) = some (rest, stt, logt) := ht
        rw [ite_some_triple] at hf ht
        simp only [Option.some.injEq, Prod.mk.injEq] at hf ht
        obtain ⟨hres, hstf, hlogf⟩ := hf
        obtain ⟨hres2, hstt, hlogt⟩ := ht
        subst hres hstf hlogf hres2 hstt hlogt
        have htail : ∀ e ∈ (if wrote then [RifscWrite.semClrW risup.id]
            else ([] : List RifscWrite)), is_cid_or_lock_write e = false := by
          cases wrote <;> simp [is_cid_or_lock_write]
        refine ⟨hycid, hylock, ?_, rfl, hzsec.symm, hzpriv.symm, rfl, ?_⟩
        · intro e he
          rcases List.mem_append.mp he with h | h
          · exact hyall e h
          · exact htail e h
        · rw [hlt, List.filter_append, List.filter_append,
            List.filter_eq_self.mpr (fun e he => by simp [hyall e he]),
            List.filter_eq_nil_iff.mpr (fun e he => by simp [hltall e he]),
            List.filter_eq_self.mpr (fun e he => by simp [htail e he])]
          simp
    -- acquire path
    · rw [if_neg hcond] at hf ht
      cases hacq : stm32_rif_acquire_semaphore_hw MAX_CID_SUPPORTED winner
          (y.1.sem risup.id) with
      | none =>
        rw [hacq] at hf
        simp at hf
      | some pr =>
        obtain ⟨r, s1⟩ := pr
        rw [hacq] at hf ht
        replace hf : (if r ≠ TEE_Result.success then
            some (TEE_Result.errorAccessDenied,
              { y.1 with sem := updf y.1.sem risup.id s1 },
              y.2 ++ [RifscWrite.semSetW risup.id])
          else some (TEE_Result.success,
              { y.1 with sem := updf y.1.sem risup.id s1 },
              y.2 ++ [RifscWrite.semSetW risup.id])) =
            some (resf, stf, logf) := hf
        replace ht : (if r ≠ TEE_Result.success then
            some (TEE_Result.errorAccessDenied,
              { seccfgr := z.1.seccfgr, privcfgr := z.1.privcfgr,
                rcfglockr := z.1.rcfglockr, cidcfgr := z.1.cidcfgr,
                rimc_attr := z.1.rimc_attr,
                sem := updf y.1.sem risup.id s1 },
              z.2 ++ [RifscWrite.semSetW risup.id])
          else some (TEE_Result.success,
              { seccfgr := z.1.seccfgr, privcfgr := z.1.privcfgr,
                rcfglockr := z.1.rcfglockr, cidcfgr := z.1.cidcfgr,
                rimc_attr := z.1.rimc_attr,
                sem := updf y.1.sem risup.id s1 },
              z.2 ++ [RifscWrite.semSetW risup.id])) =
            some (rest, stt, logt) := ht
        rw [ite_some_triple] at hf ht
        simp only [Option.some.injEq, Prod.mk.injEq] at hf ht
        obtain ⟨hres, hstf, hlogf⟩ := hf
        obtain ⟨hres2, hstt, hlogt⟩ := ht
        subst hres hstf hlogf hres2 hstt hlogt
        have htail : ∀ e ∈ [RifscWrite.semSetW risup.id],
            is_cid_or_lock_write e = false := by
          simp [is_cid_or_lock_write]
        refine ⟨hycid, hylock, ?_, rfl, hzsec.symm, hzpriv.symm, rfl, ?_⟩
        · intro e he
          rcases List.mem_append.mp he with h | h
          · exact hyall e h
          · exact htail e h
        · rw [hlt, List.filter_append, List.filter_append,
            List.filter_eq_self.mpr (fun e he => by simp [hyall e he]),
            List.filter_eq_nil_iff.mpr (fun e he => by simp [hltall e he]),
            List.filter_eq_self.mpr (fun e he => by simp [htail e he])]
          simp

theorem C3_witness :
    stm32_risup_cfg
      ⟨{ nb_rimu := 0, nb_risup := 4, rif_en := true,
         sec_en := true, priv_en := true }, false, false, []⟩ 1
      { seccfgr := fun _ => 0, privcfgr := fun _ => 0,
        rcfglockr := fun _ => 0, cidcfgr := fun _ => 0,
        rimc_attr := fun _ => 0, sem := fun _ => SemHW.free }
      { cid_attr := 131075, id := 1, sec := true, priv := true,
        lock := true, pm_sem := false } =
      some (TEE_Result.success,
        { seccfgr := updf (fun _ => 0) 0 2,
          privcfgr := updf (fun _ => 0) 0 2,
          rcfglockr := fun _ => 0,
          cidcfgr := fun _ => 0,
          rimc_attr := fun _ => 0,
          sem := updf (fun _ => SemHW.free) 1 (SemHW.taken 1) },
        [RifscWrite.secW 0 2, RifscWrite.privW 0 2,
         RifscWrite.semSetW 1]) ∧
    stm32_risup_cfg
      ⟨{ nb_rimu := 0, nb_risup := 4, rif_en := true,
         sec_en := true, priv_en := true }, true, false, []⟩ 1
      { seccfgr := fun _ => 0, privcfgr := fun _ => 0,
        rcfglockr := fun _ => 0, cidcfgr := fun _ => 0,
        rimc_attr := fun _ => 0, sem := fun _ => SemHW.free }
      { cid_attr := 131075, id := 1, sec := true, priv := true,
        lock := true, pm_sem := false } =
      some (TEE_Result.success,
        { seccfgr := updf (fun _ => 0) 0 2,
          privcfgr := updf (fun _ => 0) 0 2,
          rcfglockr := updf (fun _ => 0) 0 2,
          cidcfgr := updf (fun _ => 0) 1 131075,
          rimc_attr := fun _ => 0,
          sem := updf (fun _ => SemHW.free) 1 (SemHW.taken 1) },
        [RifscWrite.secW 0 2, RifscWrite.privW 0 2,
         RifscWrite.cidW 1 131075, RifscWrite.lockW 0 2,
         RifscWrite.semSetW 1]) ∧
    [RifscWrite.secW 0 2, RifscWrite.privW 0 2, RifscWrite.semSetW 1] =
      [RifscWrite.secW 0 2, RifscWrite.privW 0 2,
       RifscWrite.cidW 1 131075, RifscWrite.lockW 0 2,
       RifscWrite.semSetW 1].filter
        (fun e => !is_cid_or_lock_write e) := by
  have hf : stm32_risup_cfg
      ⟨{ nb_rimu := 0, nb_risup := 4, rif_en := true,
         sec_en := true, priv_en := true }, false, false, []⟩ 1
      { seccfgr := fun _ => 0, privcfgr := fun _ => 0,
        rcfglockr := fun _ => 0, cidcfgr := fun _ => 0,
        rimc_attr := fun _ => 0, sem := fun _ => SemHW.free }
      { cid_attr := 131075, id := 1, sec := true, priv := true,
        lock := true, pm_sem := false } =
      some (TEE_Result.success,
        { seccfgr := updf (fun _ => 0) 0 2,
          privcfgr := updf (fun _ => 0) 0 2,
          rcfglockr := fun _ => 0,
          cidcfgr := fun _ => 0,
          rimc_attr := fun _ => 0,
          sem := updf (fun _ => SemHW.free) 1 (SemHW.taken 1) },
        [RifscWrite.secW 0 2, RifscWrite.privW 0 2,
         RifscWrite.semSetW 1]) := rfl
  have ht : stm32_risup_cfg
      ⟨{ nb_rimu := 0, nb_risup := 4, rif_en := true,
         sec_en := true, priv_en := true }, true, false, []⟩ 1
      { seccfgr := fun _ => 0, privcfgr := fun _ => 0,
        rcfglockr := fun _ => 0, cidcfgr := fun _ => 0,
        rimc_attr := fun _ => 0, sem := fun _ => SemHW.free }
      { cid_attr := 131075, id := 1, sec := true, priv := true,
        lock := true, pm_sem := false } =
      some (TEE_Result.success,
        { seccfgr := updf (fun _ => 0) 0 2,
          privcfgr := updf (fun _ => 0) 0 2,
          rcfglockr := updf (fun _ => 0) 0 2,
          cidcfgr := updf (fun _ => 0) 1 131075,
          rimc_attr := fun _ => 0,
          sem := updf (fun _ => SemHW.free) 1 (SemHW.taken 1) },
        [RifscWrite.secW 0 2, RifscWrite.privW 0 2,
         RifscWrite.cidW 1 131075, RifscWrite.lockW 0 2,
         RifscWrite.semSetW 1]) := rfl
  exact ⟨hf, ht,
    (C3_risup_cfg_tdcid_frame _ _ _ _ _ _ _ _ _ _ _ _ hf ht).2.2.2.2.2.2.2⟩

/-- C4 counterexample: RISUP resource 1 is lock-protected (its RCFGLOCKR
bit is set in the initial state) and currently secure, yet
`stm32_rifsc_set_config` — one of the four reconfiguration paths named by
the claim — performs no lock check at all: a request for the same resource
with the security attribute cleared (a different value) returns
`TEE_SUCCESS` and rewrites SECCFGR, so the locked configuration is
changed. -/
theorem C4_set_config_ignores_lock :
    stm32_rifsc_set_config
      ⟨{ nb_rimu := 0, nb_risup := 4, rif_en := true,
         sec_en := true, priv_en := true }, true, false, []⟩ 1
      { seccfgr := fun _ => 2, privcfgr := fun _ => 0,
        rcfglockr := fun _ => 2, cidcfgr := fun _ => 0,
        rimc_attr := fun _ => 0, sem := fun _ => SemHW.free } 1 =
      some (TEE_Result.success,
        { seccfgr := updf (fun _ => 2) 0 0,
          privcfgr := updf (fun _ => 0) 0 0,
          rcfglockr := fun _ => 2,
          cidcfgr := updf (fun _ => 0) 1 0,
          rimc_attr := fun _ => 0,
          sem := updf (fun _ => SemHW.free) 1 SemHW.free },
        [RifscWrite.secW 0 0, RifscWrite.privW 0 0,
         RifscWrite.cidW 1 0]) ∧
    (2 : Nat) &&& BIT (1 % _PERIPH_IDS_PER_REG) ≠ 0 ∧
    updf (fun _ => (2 : Nat)) 0 0 0 ≠ 2 :=
  ⟨rfl, by decide, by decide⟩


/-- C4 (amended): on the three reconfiguration paths that do check the
lock — `stm32_etzpc_configure`, the TZMA branch of
`stm32_etzpc_configure_memory` (both TZMA0/ROM and TZMA1/SYSRAM), and
`stm32_rifsc_reconfigure_risup` — a lock-protected resource is never
modified: the ETZPC paths leave the device state unchanged and succeed
exactly when the requested value equals the currently configured one (an
idempotent no-op), failing with `TEE_ERROR_ACCESS_DENIED` otherwise; the
RIFSC reconfigure path always fails with `TEE_ERROR_ACCESS_DENIED` on a
locked RISUP, leaving the registers and the shadow configuration
unchanged.  The fourth path named by the original claim,
`stm32_rifsc_set_config`, performs no lock check (see the counterexample
theorem), so the claim holds only for these three paths. -/
theorem C4_locked_reconfig_paths
    (dev : etzpc_device) (arg : Nat) (plat : stm32mp1_plat)
    (paddr size : Nat) (pd : rifsc_platdata) (winner : Nat)
    (st : RifscRegs) (risups : Nat → risup_cfg) (risup_id cid : Nat)
    (sec priv cfen : Bool) :
    (∀ res dev1,
      arg &&& ETZPC_ID_MASK < dev.num_per_sec →
      decprot_is_locked dev (arg &&& ETZPC_ID_MASK) = true →
      stm32_etzpc_configure dev arg = some (res, dev1) →
      dev1 = dev ∧
      (res = TEE_Result.success ↔
        etzpc_binding2decprot ((arg &&& ETZPC_MODE_MASK) >>>
          ETZPC_MODE_SHIFT) =
          some (etzpc_do_get_decprot dev (arg &&& ETZPC_ID_MASK))) ∧
      (res ≠ TEE_Result.success → res = TEE_Result.errorAccessDenied)) ∧
    (∀ res dev1,
      (arg &&& ETZPC_ID_MASK = ETZPC_TZMA0_ID ∧ paddr = plat.rom_base ∧
         size ≤ plat.rom_size) ∨
        (arg &&& ETZPC_ID_MASK = ETZPC_TZMA1_ID ∧
         paddr = plat.sysram_base ∧ size ≤ plat.sysram_size) →
      size % SMALL_PAGE_SIZE = 0 →
      tzma_is_locked dev
        (if arg &&& ETZPC_ID_MASK = ETZPC_TZMA0_ID then 0 else 1) = true →
      stm32_etzpc_configure_memory plat dev arg paddr size =
        some (res, dev1) →
      dev1 = dev ∧
      (res = TEE_Result.success ↔
        etzpc_do_get_tzma dev
          (if arg &&& ETZPC_ID_MASK = ETZPC_TZMA0_ID then 0 else 1) =
          (size + (SMALL_PAGE_SIZE - 1)) / SMALL_PAGE_SIZE) ∧
      (res ≠ TEE_Result.success → res = TEE_Result.errorAccessDenied)) ∧
    (∀ res st1 risups1,
      risup_id ≤ pd.drv.nb_risup → cid ≤ MAX_CID_SUPPORTED →
      st.rcfglockr (risup_id / _PERIPH_IDS_PER_REG) &&&
        BIT (risup_id % _PERIPH_IDS_PER_REG) ≠ 0 →
      stm32_rifsc_reconfigure_risup pd winner st risups risup_id cid
        sec priv cfen = some (res, st1, risups1) →
      res = TEE_Result.errorAccessDenied ∧ st1 = st ∧
        risups1 = risups) := by
  refine ⟨?_, ?_, ?_⟩
  · intro res dev1 hid hlock hrun
    replace hrun : (if arg &&& ETZPC_ID_MASK < dev.num_per_sec then
        match etzpc_binding2decprot ((arg &&& ETZPC_MODE_MASK) >>>
            ETZPC_MODE_SHIFT) with
        | none => none
        | some attr =>
          if decprot_is_locked dev (arg &&& ETZPC_ID_MASK) then
            if etzpc_do_get_decprot dev (arg &&& ETZPC_ID_MASK) ≠ attr then
              some (TEE_Result.errorAccessDenied, dev)
            else some (TEE_Result.success, dev)
          else
            some (TEE_Result.success,
              if arg &&& ETZPC_LOCK_MASK != 0 then
                etzpc_do_lock_decprot
                  (etzpc_do_configure_decprot dev (arg &&& ETZPC_ID_MASK)
                    attr) (arg &&& ETZPC_ID_MASK)
              else etzpc_do_configure_decprot dev (arg &&& ETZPC_ID_MASK)
                attr)
      else some (TEE_Result.errorBadParameters, dev)) =
        some (res, dev1) := hrun
    rw [if_pos hid] at hrun
    cases hbind : etzpc_binding2decprot ((arg &&& ETZPC_MODE_MASK) >>>
        ETZPC_MODE_SHIFT) with
    | none =>
      rw [hbind] at hrun
      simp at hrun
    | some attr =>
      rw [hbind] at hrun
      replace hrun : (if decprot_is_locked dev (arg &&& ETZPC_ID_MASK) then
          if etzpc_do_get_decprot dev (arg &&& ETZPC_ID_MASK) ≠ attr then
            some (TEE_Result.errorAccessDenied, dev)
          else some (TEE_Result.success, dev)
        else
          some (TEE_Result.success,
            if arg &&& ETZPC_LOCK_MASK != 0 then
              etzpc_do_lock_decprot
                (etzpc_do_configure_decprot dev (arg &&& ETZPC_ID_MASK)
                  attr) (arg &&& ETZPC_ID_MASK)
            else etzpc_do_configure_decprot dev (arg &&& ETZPC_ID_MASK)
              attr)) = some (res, dev1) := hrun
      rw [if_pos hlock] at hrun
      by_cases hne : etzpc_do_get_decprot dev (arg &&& ETZPC_ID_MASK) ≠ attr
      · rw [if_pos hne] at hrun
        simp only [Option.some.injEq, Prod.mk.injEq] at hrun
        obtain ⟨h1, h2⟩ := hrun
        subst h1 h2
        refine ⟨rfl, ⟨fun h => absurd h (by decide), fun h => ?_⟩,
          fun _ => rfl⟩
        injection h with h
        exact absurd h.symm hne
      · rw [if_neg hne] at hrun
        push_neg at hne
        simp only [Option.some.injEq, Prod.mk.injEq] at hrun
        obtain ⟨h1, h2⟩ := hrun
        subst h1 h2
        exact ⟨rfl, ⟨fun _ => by rw [hne], fun _ => rfl⟩,
          fun h => absurd rfl h⟩
  · intro res dev1 hcase hmod hlockb hrun
    replace hrun : (if arg &&& ETZPC_ID_MASK < dev.num_per_sec &&
        (arg &&& ETZPC_ID_MASK == STM32MP1_ETZPC_SRAM1_ID ||
         arg &&& ETZPC_ID_MASK == STM32MP1_ETZPC_SRAM2_ID ||
         arg &&& ETZPC_ID_MASK == STM32MP1_ETZPC_SRAM4_ID ||
         arg &&& ETZPC_ID_MASK == STM32MP1_ETZPC_RETRAM_ID ||
         arg &&& ETZPC_ID_MASK == STM32MP1_ETZPC_SRAM3_ID) then
        if (arg &&& ETZPC_ID_MASK == STM32MP1_ETZPC_SRAM1_ID &&
            (plat.aliasPa paddr != plat.sram1_base ||
             size != plat.sram1_size)) ||
           (arg &&& ETZPC_ID_MASK == STM32MP1_ETZPC_SRAM2_ID &&
            (plat.aliasPa paddr != plat.sram2_base ||
             size != plat.sram2_size)) ||
           (arg &&& ETZPC_ID_MASK == STM32MP1_ETZPC_SRAM3_ID &&
            (plat.aliasPa paddr != plat.sram3_base ||
             size != plat.sram3_size)) ||
           (arg &&& ETZPC_ID_MASK == STM32MP1_ETZPC_SRAM4_ID &&
            (plat.aliasPa paddr != plat.sram4_base ||
             size != plat.sram4_size)) ||
           (arg &&& ETZPC_ID_MASK == STM32MP1_ETZPC_RETRAM_ID &&
            (plat.aliasPa paddr != plat.retram_base ||
             size != plat.retram_size)) then
          some (TEE_Result.errorBadParameters, dev)
        else
          match etzpc_binding2decprot ((arg &&& ETZPC_MODE_MASK) >>>
              ETZPC_MODE_SHIFT) with
          | none => none
          | some attr =>
            if decprot_is_locked dev (arg &&& ETZPC_ID_MASK) then
              if etzpc_do_get_decprot dev (arg &&& ETZPC_ID_MASK) ≠
                  attr then
                some (TEE_Result.errorAccessDenied, dev)
              else some (TEE_Result.success, dev)
            else
              some (TEE_Result.success,
                if arg &&& ETZPC_LOCK_MASK != 0 then
                  etzpc_do_lock_decprot
                    (etzpc_do_configure_decprot dev
                      (arg &&& ETZPC_ID_MASK) attr)
                    (arg &&& ETZPC_ID_MASK)
                else etzpc_do_configure_decprot dev
                  (arg &&& ETZPC_ID_MASK) attr)
      else if arg &&& ETZPC_ID_MASK == ETZPC_TZMA0_ID ||
              arg &&& ETZPC_ID_MASK == ETZPC_TZMA1_ID then
        if (arg &&& ETZPC_ID_MASK == ETZPC_TZMA0_ID &&
            (paddr != plat.rom_base || size > plat.rom_size)) ||
           (arg &&& ETZPC_ID_MASK == ETZPC_TZMA1_ID &&
            (paddr != plat.sysram_base || size > plat.sysram_size)) then
          some (TEE_Result.errorBadParameters, dev)
        else
          if size % SMALL_PAGE_SIZE != 0 then
            some (TEE_Result.errorBadParameters, dev)
          else
            if tzma_is_locked dev
                (if arg &&& ETZPC_ID_MASK == ETZPC_TZMA0_ID then 0
                 else 1) then
              if etzpc_do_get_tzma dev
                  (if arg &&& ETZPC_ID_MASK == ETZPC_TZMA0_ID then 0
                   else 1) ≠
                  (size + (SMALL_PAGE_SIZE - 1)) / SMALL_PAGE_SIZE then
                some (TEE_Result.errorAccessDenied, dev)
              else some (TEE_Result.success, dev)
            else some (TEE_Result.success,
              etzpc_do_configure_tzma dev
                (if arg &&& ETZPC_ID_MASK == ETZPC_TZMA0_ID then 0
                 else 1)
                ((size + (SMALL_PAGE_SIZE - 1)) / SMALL_PAGE_SIZE))
      else some (TEE_Result.errorBadParameters, dev)) =
        some (res, dev1) := hrun
    have hft : ¬(false = true) := by decide
    rcases hcase with ⟨harg, hpaddr, hsize⟩ | ⟨harg, hpaddr, hsize⟩
    · rw [harg] at hrun hlockb ⊢
      rw [if_pos rfl] at hlockb ⊢
      have hc1 : (ETZPC_TZMA0_ID < dev.num_per_sec &&
          (ETZPC_TZMA0_ID == STM32MP1_ETZPC_SRAM1_ID ||
           ETZPC_TZMA0_ID == STM32MP1_ETZPC_SRAM2_ID ||
           ETZPC_TZMA0_ID == STM32MP1_ETZPC_SRAM4_ID ||
           ETZPC_TZMA0_ID == STM32MP1_ETZPC_RETRAM_ID ||
           ETZPC_TZMA0_ID == STM32MP1_ETZPC_SRAM3_ID)) = false := by
        simp [ETZPC_TZMA0_ID, STM32MP1_ETZPC_SRAM1_ID,
          STM32MP1_ETZPC_SRAM2_ID, STM32MP1_ETZPC_SRAM4_ID,
          STM32MP1_ETZPC_RETRAM_ID, STM32MP1_ETZPC_SRAM3_ID]
      rw [hc1, if_neg hft] at hrun
      have hc2 : (ETZPC_TZMA0_ID == ETZPC_TZMA0_ID ||
          ETZPC_TZMA0_ID == ETZPC_TZMA1_ID) = true := by decide
      rw [hc2, if_pos rfl] at hrun
      have hc3 : ((ETZPC_TZMA0_ID == ETZPC_TZMA0_ID &&
          (paddr != plat.rom_base || size > plat.rom_size)) ||
         (ETZPC_TZMA0_ID == ETZPC_TZMA1_ID &&
          (paddr != plat.sysram_base ||
           size > plat.sysram_size))) = false := by
        simp [ETZPC_TZMA0_ID, ETZPC_TZMA1_ID, hpaddr,
          Nat.not_lt.mpr hsize]
      rw [hc3, if_neg hft] at hrun
      have hc4 : (size % SMALL_PAGE_SIZE != 0) = false := by
        simp [hmod]
      rw [hc4, if_neg hft] at hrun
      have ht0 : (if (ETZPC_TZMA0_ID == ETZPC_TZMA0_ID : Bool) then
          (0 : Nat) else 1) = 0 := by decide
      rw [ht0] at hrun
      rw [if_pos hlockb] at hrun
      by_cases hne : etzpc_do_get_tzma dev 0 ≠
          (size + (SMALL_PAGE_SIZE - 1)) / SMALL_PAGE_SIZE
      · rw [if_pos hne] at hrun
        simp only [Option.some.injEq, Prod.mk.injEq] at hrun
        obtain ⟨h1, h2⟩ := hrun
        subst h1 h2
        exact ⟨rfl, ⟨fun h => absurd h (by decide), fun h => absurd h hne⟩,
          fun _ => rfl⟩
      · rw [if_neg hne] at hrun
        push_neg at hne
        simp only [Option.some.injEq, Prod.mk.injEq] at hrun
        obtain ⟨h1, h2⟩ := hrun
        subst h1 h2
        exact ⟨rfl, ⟨fun _ => hne, fun _ => rfl⟩, fun h => absurd rfl h⟩
    · rw [harg] at hrun hlockb ⊢
      rw [if_neg (by decide)] at hlockb ⊢
      have hc1 : (ETZPC_TZMA1_ID < dev.num_per_sec &&
          (ETZPC_TZMA1_ID == STM32MP1_ETZPC_SRAM1_ID ||
           ETZPC_TZMA1_ID == STM32MP1_ETZPC_SRAM2_ID ||
           ETZPC_TZMA1_ID == STM32MP1_ETZPC_SRAM4_ID ||
           ETZPC_TZMA1_ID == STM32MP1_ETZPC_RETRAM_ID ||
           ETZPC_TZMA1_ID == STM32MP1_ETZPC_SRAM3_ID)) = false := by
        simp [ETZPC_TZMA1_ID, STM32MP1_ETZPC_SRAM1_ID,
          STM32MP1_ETZPC_SRAM2_ID, STM32MP1_ETZPC_SRAM4_ID,
          STM32MP1_ETZPC_RETRAM_ID, STM32MP1_ETZPC_SRAM3_ID]
      rw [hc1, if_neg hft] at hrun
      have hc2 : (ETZPC_TZMA1_ID == ETZPC_TZMA0_ID ||
          ETZPC_TZMA1_ID == ETZPC_TZMA1_ID) = true := by decide
      rw [hc2, if_pos rfl] at hrun
      have hc3 : ((ETZPC_TZMA1_ID == ETZPC_TZMA0_ID &&
          (paddr != plat.rom_base || size > plat.rom_size)) ||
         (ETZPC_TZMA1_ID == ETZPC_TZMA1_ID &&
          (paddr != plat.sysram_base ||
           size > plat.sysram_size))) = false := by
        simp [ETZPC_TZMA0_ID, ETZPC_TZMA1_ID, hpaddr,
          Nat.not_lt.mpr hsize]
      rw [hc3, if_neg hft] at hrun
      have hc4 : (size % SMALL_PAGE_SIZE != 0) = false := by
        simp [hmod]
      rw [hc4, if_neg hft] at hrun
      have ht1 : (if (ETZPC_TZMA1_ID == ETZPC_TZMA0_ID : Bool) then
          (0 : Nat) else 1) = 1 := by decide
      rw [ht1] at hrun
      rw [if_pos hlockb] at hrun
      by_cases hne : etzpc_do_get_tzma dev 1 ≠
          (size + (SMALL_PAGE_SIZE - 1)) / SMALL_PAGE_SIZE
      · rw [if_pos hne] at hrun
        simp only [Option.some.injEq, Prod.mk.injEq] at hrun
        obtain ⟨h1, h2⟩ := hrun
        subst h1 h2
        exact ⟨rfl, ⟨fun h => absurd h (by decide), fun h => absurd h hne⟩,
          fun _ => rfl⟩
      · rw [if_neg hne] at hrun
        push_neg at hne
        simp only [Option.some.injEq, Prod.mk.injEq] at hrun
        obtain ⟨h1, h2⟩ := hrun
        subst h1 h2
        exact ⟨rfl, ⟨fun _ => hne, fun _ => rfl⟩, fun h => absurd rfl h⟩
  · intro res st1 risups1 hok hcid hlock hrun
    unfold stm32_rifsc_reconfigure_risup at hrun
    have h1 : (risup_id > pd.drv.nb_risup ||
        cid > MAX_CID_SUPPORTED) = false := by
      simp [Nat.not_lt.mpr hok, Nat.not_lt.mpr hcid]
    rw [h1, if_neg (by decide)] at hrun
    have h2 : (st.rcfglockr (risup_id / _PERIPH_IDS_PER_REG) &&&
        BIT (risup_id % _PERIPH_IDS_PER_REG) != 0) = true := by
      simp [bne_iff_ne, hlock]
    rw [h2, if_pos rfl] at hrun
    simp only [Option.some.injEq, Prod.mk.injEq] at hrun
    obtain ⟨h3, h4, h5⟩ := hrun
    subst h3 h4 h5
    exact ⟨rfl, rfl, rfl⟩

theorem C4_witness :
    stm32_etzpc_configure
      { num_tzma := 2, num_per_sec := 16, decprot := fun _ => 0,
        decprot_lock := fun _ => 32, tzma := fun _ => 2147483650 } 5 =
      some (TEE_Result.success,
        { num_tzma := 2, num_per_sec := 16, decprot := fun _ => 0,
          decprot_lock := fun _ => 32, tzma := fun _ => 2147483650 }) ∧
    stm32_etzpc_configure_memory
      { sram1_base := 0, sram1_size := 0, sram2_base := 0, sram2_size := 0,
        sram3_base := 0, sram3_size := 0, sram4_base := 0, sram4_size := 0,
        retram_base := 0, retram_size := 0, rom_base := 1000,
        rom_size := 16384, sysram_base := 2000, sysram_size := 8192,
        aliasPa := fun x => x }
      { num_tzma := 2, num_per_sec := 16, decprot := fun _ => 0,
        decprot_lock := fun _ => 32, tzma := fun _ => 2147483650 }
      4096 1000 8192 =
      some (TEE_Result.success,
        { num_tzma := 2, num_per_sec := 16, decprot := fun _ => 0,
          decprot_lock := fun _ => 32, tzma := fun _ => 2147483650 }) ∧
    stm32_etzpc_configure_memory
      { sram1_base := 0, sram1_size := 0, sram2_base := 0, sram2_size := 0,
        sram3_base := 0, sram3_size := 0, sram4_base := 0, sram4_size := 0,
        retram_base := 0, retram_size := 0, rom_base := 1000,
        rom_size := 16384, sysram_base := 2000, sysram_size := 8192,
        aliasPa := fun x => x }
      { num_tzma := 2, num_per_sec := 16, decprot := fun _ => 0,
        decprot_lock := fun _ => 32, tzma := fun _ => 2147483650 }
      4097 2000 8192 =
      some (TEE_Result.success,
        { num_tzma := 2, num_per_sec := 16, decprot := fun _ => 0,
          decprot_lock := fun _ => 32, tzma := fun _ => 2147483650 }) ∧
    stm32_rifsc_reconfigure_risup
      ⟨{ nb_rimu := 0, nb_risup := 4, rif_en := true, sec_en := true,
         priv_en := true }, true, false, []⟩ 1
      { seccfgr := fun _ => 0, privcfgr := fun _ => 0,
        rcfglockr := fun _ => 2, cidcfgr := fun _ => 0,
        rimc_attr := fun _ => 0, sem := fun _ => SemHW.free }
      (fun _ => { cid_attr := 0, id := 0, sec := false, priv := false,
                  lock := false, pm_sem := false }) 1 0 false false false =
      some (TEE_Result.errorAccessDenied,
        { seccfgr := fun _ => 0, privcfgr := fun _ => 0,
          rcfglockr := fun _ => 2, cidcfgr := fun _ => 0,
          rimc_attr := fun _ => 0, sem := fun _ => SemHW.free },
        fun _ => { cid_attr := 0, id := 0, sec := false, priv := false,
                   lock := false, pm_sem := false }) ∧
    etzpc_binding2decprot 0 = some ETZPC_DECPROT_S_RW ∧
    etzpc_do_get_tzma
      { num_tzma := 2, num_per_sec := 16, decprot := fun _ => 0,
        decprot_lock := fun _ => 32, tzma := fun _ => 2147483650 } 0 = 2 ∧
    etzpc_do_get_tzma
      { num_tzma := 2, num_per_sec := 16, decprot := fun _ => 0,
        decprot_lock := fun _ => 32, tzma := fun _ => 2147483650 } 1 = 2 ∧
    TEE_Result.errorAccessDenied = TEE_Result.errorAccessDenied := by
  have ha : stm32_etzpc_configure
      { num_tzma := 2, num_per_sec := 16, decprot := fun _ => 0,
        decprot_lock := fun _ => 32, tzma := fun _ => 2147483650 } 5 =
      some (TEE_Result.success,
        { num_tzma := 2, num_per_sec := 16, decprot := fun _ => 0,
          decprot_lock := fun _ => 32, tzma := fun _ => 2147483650 }) := rfl
  have hb : stm32_etzpc_configure_memory
      { sram1_base := 0, sram1_size := 0, sram2_base := 0, sram2_size := 0,
        sram3_base := 0, sram3_size := 0, sram4_base := 0, sram4_size := 0,
        retram_base := 0, retram_size := 0, rom_base := 1000,
        rom_size := 16384, sysram_base := 2000, sysram_size := 8192,
        aliasPa := fun x => x }
      { num_tzma := 2, num_per_sec := 16, decprot := fun _ => 0,
        decprot_lock := fun _ => 32, tzma := fun _ => 2147483650 }
      4096 1000 8192 =
      some (TEE_Result.success,
        { num_tzma := 2, num_per_sec := 16, decprot := fun _ => 0,
          decprot_lock := fun _ => 32, tzma := fun _ => 2147483650 }) := rfl
  have hb2 : stm32_etzpc_configure_memory
      { sram1_base := 0, sram1_size := 0, sram2_base := 0, sram2_size := 0,
        sram3_base := 0, sram3_size := 0, sram4_base := 0, sram4_size := 0,
        retram_base := 0, retram_size := 0, rom_base := 1000,
        rom_size := 16384, sysram_base := 2000, sysram_size := 8192,
        aliasPa := fun x => x }
      { num_tzma := 2, num_per_sec := 16, decprot := fun _ => 0,
        decprot_lock := fun _ => 32, tzma := fun _ => 2147483650 }
      4097 2000 8192 =
      some (TEE_Result.success,
        { num_tzma := 2, num_per_sec := 16, decprot := fun _ => 0,
          decprot_lock := fun _ => 32, tzma := fun _ => 2147483650 }) := rfl
  have hc : stm32_rifsc_reconfigure_risup
      ⟨{ nb_rimu := 0, nb_risup := 4, rif_en := true, sec_en := true,
         priv_en := true }, true, false, []⟩ 1
      { seccfgr := fun _ => 0, privcfgr := fun _ => 0,
        rcfglockr := fun _ => 2, cidcfgr := fun _ => 0,
        rimc_attr := fun _ => 0, sem := fun _ => SemHW.free }
      (fun _ => { cid_attr := 0, id := 0, sec := false, priv := false,
                  lock := false, pm_sem := false }) 1 0 false false false =
      some (TEE_Result.errorAccessDenied,
        { seccfgr := fun _ => 0, privcfgr := fun _ => 0,
          rcfglockr := fun _ => 2, cidcfgr := fun _ => 0,
          rimc_attr := fun _ => 0, sem := fun _ => SemHW.free },
        fun _ => { cid_attr := 0, id := 0, sec := false, priv := false,
                   lock := false, pm_sem := false }) := rfl
  refine ⟨ha, hb, hb2, hc, ?_, ?_, ?_, ?_⟩
  · exact ((C4_locked_reconfig_paths
      { num_tzma := 2, num_per_sec := 16, decprot := fun _ => 0,
        decprot_lock := fun _ => 32, tzma := fun _ => 2147483650 } 5
      { sram1_base := 0, sram1_size := 0, sram2_base := 0, sram2_size := 0,
        sram3_base := 0, sram3_size := 0, sram4_base := 0, sram4_size := 0,
        retram_base := 0, retram_size := 0, rom_base := 1000,
        rom_size := 16384, sysram_base := 2000, sysram_size := 8192,
        aliasPa := fun x => x } 1000 8192
      ⟨{ nb_rimu := 0, nb_risup := 4, rif_en := true, sec_en := true,
         priv_en := true }, true, false, []⟩ 1
      { seccfgr := fun _ => 0, privcfgr := fun _ => 0,
        rcfglockr := fun _ => 2, cidcfgr := fun _ => 0,
        rimc_attr := fun _ => 0, sem := fun _ => SemHW.free }
      (fun _ => { cid_attr := 0, id := 0, sec := false, priv := false,
                  lock := false, pm_sem := false }) 1 0
      false false false).1 _ _ (by decide) (by decide) ha).2.1.mp rfl
  · exact ((C4_locked_reconfig_paths
      { num_tzma := 2, num_per_sec := 16, decprot := fun _ => 0,
        decprot_lock := fun _ => 32, tzma := fun _ => 2147483650 } 4096
      { sram1_base := 0, sram1_size := 0, sram2_base := 0, sram2_size := 0,
        sram3_base := 0, sram3_size := 0, sram4_base := 0, sram4_size := 0,
        retram_base := 0, retram_size := 0, rom_base := 1000,
        rom_size := 16384, sysram_base := 2000, sysram_size := 8192,
        aliasPa := fun x => x } 1000 8192
      ⟨{ nb_rimu := 0, nb_risup := 4, rif_en := true, sec_en := true,
         priv_en := true }, true, false, []⟩ 1
      { seccfgr := fun _ => 0, privcfgr := fun _ => 0,
        rcfglockr := fun _ => 2, cidcfgr := fun _ => 0,
        rimc_attr := fun _ => 0, sem := fun _ => SemHW.free }
      (fun _ => { cid_attr := 0, id := 0, sec := false, priv := false,
                  lock := false, pm_sem := false }) 1 0
      false false false).2.1 _ _
      (Or.inl ⟨by decide, by decide, by decide⟩) (by decide) (by decide)
      hb).2.1.mp rfl
  · exact ((C4_locked_reconfig_paths
      { num_tzma := 2, num_per_sec := 16, decprot := fun _ => 0,
        decprot_lock := fun _ => 32, tzma := fun _ => 2147483650 } 4097
      { sram1_base := 0, sram1_size := 0, sram2_base := 0, sram2_size := 0,
        sram3_base := 0, sram3_size := 0, sram4_base := 0, sram4_size := 0,
        retram_base := 0, retram_size := 0, rom_base := 1000,
        rom_size := 16384, sysram_base := 2000, sysram_size := 8192,
        aliasPa := fun x => x } 2000 8192
      ⟨{ nb_rimu := 0, nb_risup := 4, rif_en := true, sec_en := true,
         priv_en := true }, true, false, []⟩ 1
      { seccfgr := fun _ => 0, privcfgr := fun _ => 0,
        rcfglockr := fun _ => 2, cidcfgr := fun _ => 0,
        rimc_attr := fun _ => 0, sem := fun _ => SemHW.free }
      (fun _ => { cid_attr := 0, id := 0, sec := false, priv := false,
                  lock := false, pm_sem := false }) 1 0
      false false false).2.1 _ _
      (Or.inr ⟨by decide, by decide, by decide⟩) (by decide) (by decide)
      hb2).2.1.mp rfl
  · exact ((C4_locked_reconfig_paths
      { num_tzma := 2, num_per_sec := 16, decprot := fun _ => 0,
        decprot_lock := fun _ => 32, tzma := fun _ => 2147483650 } 5
      { sram1_base := 0, sram1_size := 0, sram2_base := 0, sram2_size := 0,
        sram3_base := 0, sram3_size := 0, sram4_base := 0, sram4_size := 0,
        retram_base := 0, retram_size := 0, rom_base := 1000,
        rom_size := 16384, sysram_base := 2000, sysram_size := 8192,
        aliasPa := fun x => x } 1000 8192
      ⟨{ nb_rimu := 0, nb_risup := 4, rif_en := true, sec_en := true,
         priv_en := true }, true, false, []⟩ 1
      { seccfgr := fun _ => 0, privcfgr := fun _ => 0,
        rcfglockr := fun _ => 2, cidcfgr := fun _ => 0,
        rimc_attr := fun _ => 0, sem := fun _ => SemHW.free }
      (fun _ => { cid_attr := 0, id := 0, sec := false, priv := false,
                  lock := false, pm_sem := false }) 1 0
      false false false).2.2 _ _ _ (by decide) (by decide) (by decide)
      hc).1
